import Mathlib

/-!
Verification of the genomic eligibility criterion interpretation engine
(`backend/agents/genomic_analyst_agent.py` together with its collaborator
`backend/api_mocks/mock_evo2_api.py`).

The Python code is shallowly embedded below.  Free functions and methods of
`GenomicAnalystAgent` become Lean functions over `List Char` / `String`;
the regular expressions used by the agent are embedded as hand-written
backtracking matchers that reproduce Python `re` semantics (ordered
alternation, greedy quantifiers, word boundaries, lookarounds) for the
concrete patterns appearing in the source.  The external variant-effect
predictor is a parameter of the pipeline (`Predictor`); the reference mock
implementation `getVariantEffectMock` is embedded as well, and a Python
exception escaping the predictor is modelled as the `Except.error` case,
which the agent's `try/except` blocks translate to.
-/

set_option maxRecDepth 8000

namespace GenomicAnalyst

/-! ## String utilities

Counterparts of the Python `str` operations used by the agent.  All text
processing is done on `List Char`; `String` is unpacked via `.data`. -/

/-- Python regex word character (`\w` for the ASCII inputs at hand). -/
def pyIsWordChar (c : Char) : Bool := c.isAlphanum || c == '_'

/-- Python regex whitespace (`\s`): space, tab, newline, CR, VT, FF. -/
def pyIsSpaceChar (c : Char) : Bool :=
  c == ' ' || c == '\t' || c == '\n' || c == '\x0d' || c == '\x0b' || c == '\x0c'

def pyIsUpperAlpha (c : Char) : Bool := 'A' ≤ c && c ≤ 'Z'

def pyIsLowerAlpha (c : Char) : Bool := 'a' ≤ c && c ≤ 'z'

def pyIsAlpha (c : Char) : Bool := pyIsUpperAlpha c || pyIsLowerAlpha c

def pyIsDigit (c : Char) : Bool := '0' ≤ c && c ≤ '9'

def lowerChars (cs : List Char) : List Char := cs.map Char.toLower

def upperChars (cs : List Char) : List Char := cs.map Char.toUpper

/-- Python `str.lower()` (ASCII). -/
def strLower (s : String) : String := ⟨lowerChars s.data⟩

/-- Python `str.upper()` (ASCII). -/
def strUpper (s : String) : String := ⟨upperChars s.data⟩

/-- Python `needle in hay` substring test. -/
def listContainsSub (hay needle : List Char) : Bool :=
  match hay with
  | [] => needle.isEmpty
  | _ :: rest => needle.isPrefixOf hay || listContainsSub rest needle

def strContainsSub (hay needle : String) : Bool := listContainsSub hay.data needle.data

/-- Python `str.startswith`. -/
def strStartsWith (s pre : String) : Bool := pre.data.isPrefixOf s.data

/-- Python `str.endswith`. -/
def strEndsWith (s suf : String) : Bool := suf.data.isSuffixOf s.data

/-- Python `<` on strings: code-point lexicographic order. -/
def charListLt : List Char → List Char → Bool
  | [], [] => false
  | [], _ :: _ => true
  | _ :: _, [] => false
  | a :: as, b :: bs => a.val < b.val || (a.val == b.val && charListLt as bs)

def insertSortedStr (s : String) : List String → List String
  | [] => [s]
  | t :: ts => if charListLt s.data t.data then s :: t :: ts else t :: insertSortedStr s ts

/-- Python `sorted` on a list of strings. -/
def sortStrings : List String → List String
  | [] => []
  | s :: ss => insertSortedStr s (sortStrings ss)

def insertByLenDesc (s : String) : List String → List String
  | [] => [s]
  | t :: ts => if t.data.length < s.data.length then s :: t :: ts else t :: insertByLenDesc s ts

/-- Python `sorted(xs, key=len, reverse=True)` (stable). -/
def sortByLenDesc : List String → List String
  | [] => []
  | s :: ss => insertByLenDesc s (sortByLenDesc ss)

/-- Python set construction followed by iteration: duplicates removed.
Downstream results proved in this file do not depend on iteration order. -/
def pySet (l : List String) : List String := l.dedup

/-- Python truthiness for `Optional[str]`: `None` and `""` are falsy. -/
def optTruthy : Option String → Option String
  | some s => if s = "" then none else some s
  | none => none

/-- Python `a or b` for an optional string with a string default. -/
def pyOrDefault (o : Option String) (d : String) : String :=
  match optTruthy o with
  | some s => s
  | none => d

/-! ## Keyword-pattern matching

The patterns fed to `re.search` by `_determine_criterion_intent` are all of
the shape `\b lit (\s+ lit)* [\b]` with finite alternation (character
classes `[- ]`, optional groups and `(?:e|y)` are expanded into explicit
literal alternatives below, following the source patterns).  `Tok.ws`
matches one-or-more whitespace; since every following literal begins with a
non-space character, maximal munch is equivalent to backtracking here. -/

inductive Tok where
  | lit (s : String)
  | ws
deriving Repr, DecidableEq

def eatToks : List Tok → List Char → Option (List Char)
  | [], cs => some cs
  | Tok.lit s :: ts, cs =>
      if s.data.isPrefixOf cs then eatToks ts (cs.drop s.data.length) else none
  | Tok.ws :: ts, cs =>
      match cs with
      | c :: rest => if pyIsSpaceChar c then eatToks ts (rest.dropWhile pyIsSpaceChar) else none
      | [] => none

/-- One keyword pattern: a set of literal alternatives, with `closed = true`
when the source regex ends in `\b`. -/
structure KeyPat where
  alts : List (List Tok)
  closed : Bool
deriving Repr

def altMatchAt (closed : Bool) (alt : List Tok) (cs : List Char) : Bool :=
  match eatToks alt cs with
  | none => false
  | some rest =>
      if closed then
        match rest with
        | [] => true
        | c :: _ => !pyIsWordChar c
      else true

def patSearchAux (p : KeyPat) (prev : Option Char) (cs : List Char) : Bool :=
  match cs with
  | [] => false
  | c :: rest =>
      let boundaryOk : Bool :=
        match prev with
        | none => true
        | some pc => !pyIsWordChar pc
      (boundaryOk && p.alts.any (fun alt => altMatchAt p.closed alt (c :: rest)))
        || patSearchAux p (some c) rest

/-- Python `re.search` for a `\b`-anchored keyword pattern over `cs`. -/
def patSearch (cs : List Char) (p : KeyPat) : Bool := patSearchAux p none cs

/-! ## Intent patterns (`GenomicAnalystAgent.intent_patterns` and the
presence/absence keyword lists of `_determine_criterion_intent`) -/

/-- `intent_patterns['ACTIVATING_PRESENCE']`, each wrapped in `\b...\b`. -/
def activatingPat : KeyPat :=
  ⟨[[Tok.lit "activating"], [Tok.lit "oncogenic"],
    [Tok.lit "gain-of-function"], [Tok.lit "gain-of function"],
    [Tok.lit "gain of-function"], [Tok.lit "gain of function"],
    [Tok.lit "gof"]], true⟩

/-- `intent_patterns['PATHOGENIC_PRESENCE']`. -/
def pathogenicPat : KeyPat :=
  ⟨[[Tok.lit "pathogenic"], [Tok.lit "deleterious"],
    [Tok.lit "loss-of-function"], [Tok.lit "loss-of function"],
    [Tok.lit "loss of-function"], [Tok.lit "loss of function"],
    [Tok.lit "lof"]], true⟩

/-- `intent_patterns['RESISTANCE_PRESENCE']`. -/
def resistancePat : KeyPat := ⟨[[Tok.lit "resistance mutation"]], true⟩

/-- `intent_patterns['WILD_TYPE']`. -/
def wildTypePat : KeyPat :=
  ⟨[[Tok.lit "wildtype"], [Tok.lit "wild-type"], [Tok.lit "wild type"],
    [Tok.lit "wt"], [Tok.lit "absence of mutation"], [Tok.lit "no mutation"],
    [Tok.lit "negative for mutation"], [Tok.lit "unmutated"],
    [Tok.lit "negative"]], true⟩

/-- `intent_patterns['MUTATION_PRESENCE']`. -/
def mutationPat : KeyPat :=
  ⟨[[Tok.lit "mutation"], [Tok.lit "variant"], [Tok.lit "alteration"],
    [Tok.lit "mutated"], [Tok.lit "change"]], true⟩

/-- `r'\b(?:effect|impact)\s+of\b'`. -/
def effectOfPat : KeyPat :=
  ⟨[[Tok.lit "effect", Tok.ws, Tok.lit "of"], [Tok.lit "impact", Tok.ws, Tok.lit "of"]], true⟩

/-- The `presence_keywords` list of `_determine_criterion_intent`. -/
def presencePats : List KeyPat :=
  [⟨[[Tok.lit "presence", Tok.ws, Tok.lit "of"]], true⟩,
   ⟨[[Tok.lit "has"]], true⟩,
   ⟨[[Tok.lit "with"]], true⟩,
   ⟨[[Tok.lit "positive", Tok.ws, Tok.lit "for"]], true⟩]

/-- The `absence_keywords` list, except its final entry
`r'^(?!.*presence of.*)'` which is handled separately: `re.search` only
tries `^` at position 0 and `.` does not cross a newline, so that entry
matches exactly when the first line of the text does not contain the
substring "presence of".
`r'\bno\s+(?:known\s+)?'` matches iff `\bno\s+` does, and has no trailing
`\b`. -/
def absenceRealPats : List KeyPat :=
  [⟨[[Tok.lit "absence", Tok.ws, Tok.lit "of"], [Tok.lit "absency", Tok.ws, Tok.lit "of"]], true⟩,
   ⟨[[Tok.lit "no", Tok.ws]], false⟩,
   ⟨[[Tok.lit "without"]], true⟩,
   ⟨[[Tok.lit "negative", Tok.ws, Tok.lit "for"]], true⟩,
   ⟨[[Tok.lit "not", Tok.ws, Tok.lit "have"]], true⟩,
   ⟨[[Tok.lit "non-mutated"]], true⟩,
   ⟨[[Tok.lit "should", Tok.ws, Tok.lit "not", Tok.ws, Tok.lit "have"]], true⟩,
   ⟨[[Tok.lit "must", Tok.ws, Tok.lit "not", Tok.ws, Tok.lit "be"]], true⟩,
   ⟨[[Tok.lit "excludes", Tok.ws, Tok.lit "if"], [Tok.lit "exclude", Tok.ws, Tok.lit "if"]], true⟩]

/-! ## `_determine_criterion_intent` -/

structure IntentDetails where
  primary_intent : String
  status_keyword : String
  is_negated : Bool
deriving Repr, DecidableEq

/-- The `status_priority_map` dict of `_determine_criterion_intent`, in its
insertion order (Python dicts iterate in insertion order). -/
def statusPriorityList : List (String × KeyPat) :=
  [("ACTIVATING", activatingPat),
   ("PATHOGENIC/LOF", pathogenicPat),
   ("RESISTANCE", resistancePat),
   ("WILD_TYPE", wildTypePat),
   ("ANY_MUTATION", mutationPat)]

/-- The status-keyword scan loop: the first entry of `statusPriorityList`
whose pattern matches sets `status_keyword` (and possibly refines
`primary_intent`), then breaks. -/
def statusScanStep (ql : List Char) (cur : IntentDetails) : IntentDetails :=
  match statusPriorityList.find? (fun kv => patSearch ql kv.2) with
  | none => cur
  | some kv =>
      let cur' : IntentDetails := { cur with status_keyword := kv.1 }
      if cur'.primary_intent = "GET_EFFECT" ∧ kv.1 ≠ "ANY_MUTATION" then
        { cur' with primary_intent :=
            if cur'.is_negated then "CHECK_ABSENCE" else "CHECK_PRESENCE" }
      else cur'

/-- The characters before the first newline: the span Python's `.` can
cross from position 0 without `re.DOTALL`. -/
def firstLine (ql : List Char) : List Char := ql.takeWhile (fun c => c ≠ '\n')

/-- Step 1 of `_determine_criterion_intent`: the effect-of check and the
presence/absence scan (source lines 272-304).  The final entry of the
absence list, `r'^(?!.*presence of.*)'`, matches exactly when the first
line of the text does not contain the substring "presence of" (`re.search`
anchors `^` at position 0 and `.` stops at a newline). -/
def negationScan (ql : List Char) : IntentDetails :=
  let base : IntentDetails := ⟨"GET_EFFECT", "ANY_MUTATION", false⟩
  if patSearch ql effectOfPat then base
  else
    let pres := presencePats.any (patSearch ql)
    let abs := absenceRealPats.any (patSearch ql)
      || !(listContainsSub (firstLine ql) ("presence of".data))
    if abs && !pres then
      { base with is_negated := true, primary_intent := "CHECK_ABSENCE" }
    else if pres then { base with primary_intent := "CHECK_PRESENCE" }
    else { base with primary_intent := "CHECK_PRESENCE" }

/-- `GenomicAnalystAgent._determine_criterion_intent`. -/
def determineCriterionIntent (q : String) : IntentDetails :=
  let ql := lowerChars q.data
  let afterScan := statusScanStep ql (negationScan ql)
  let afterRefine : IntentDetails :=
    if afterScan.primary_intent = "GET_EFFECT" ∧ afterScan.status_keyword ≠ "ANY_MUTATION" then
      { afterScan with primary_intent :=
          if afterScan.is_negated then "CHECK_ABSENCE" else "CHECK_PRESENCE" }
    else afterScan
  if listContainsSub (ql.filter (fun c => c ≠ ' ')) ("her2-negative".data) then
    { afterRefine with status_keyword := "WILD_TYPE", primary_intent := "CHECK_PRESENCE",
                       is_negated := false }
  else afterRefine

/-! ## `_extract_genes` -/

/-- `GenomicAnalystAgent.known_genes`. -/
def knownGenes : List String :=
  ["PIK3CA", "KRAS", "TP53", "BRCA1", "BRCA2", "AKT", "AKT1", "AKT2", "AKT3",
   "EGFR", "BRAF", "ERBB2", "FGFR1", "FGFR2", "FGFR3", "IDH1", "IDH2", "MET",
   "ALK", "ROS1", "RET", "NTRK1", "NTRK2", "NTRK3"]

/-- The character class `[A-Z0-9]` of the gene-boundary lookarounds. -/
def pyIsUpperAlnum (c : Char) : Bool := pyIsUpperAlpha c || pyIsDigit c

def guardedAt (g : List Char) (prev : Option Char) (cs : List Char) : Bool :=
  (match prev with
   | none => true
   | some pc => !pyIsUpperAlnum pc)
  && g.isPrefixOf cs
  && (match cs.drop g.length with
      | [] => true
      | c :: _ => !pyIsUpperAlnum c)

/-- `re.search(r'(?<![A-Z0-9])' + gene + r'(?![A-Z0-9])', text)`. -/
def containsGuardedAux (g : List Char) (prev : Option Char) : List Char → Bool
  | [] => false
  | c :: rest => guardedAt g prev (c :: rest) || containsGuardedAux g (some c) rest

/-- `GenomicAnalystAgent._extract_genes`: whole-token match of every known
gene against the upper-cased query, `HER2` canonicalised to `ERBB2` (dead in
practice: `HER2` is not in `known_genes`), result sorted. -/
def extractGenes (q : String) : List String :=
  let qUp := upperChars q.data
  let found := (sortByLenDesc knownGenes).filter (fun g => containsGuardedAux g.data none qUp)
  let canon := found.map (fun g => if g = "HER2" then "ERBB2" else g)
  sortStrings canon.dedup

/-! ## Variant-pattern parsers for `_extract_specific_variants` and
`_normalize_variant_name`

Each Python regex is embedded as a hand-written parser at a text position.
Ordered alternation and the backtracking the concrete patterns can require
(optional amino-acid groups, the trailing lookaheads, the group star of the
general-type pattern) are made explicit; greedy character-class runs that
cannot interact with what follows are taken maximally. -/

def eatLit (lit : List Char) (cs : List Char) : Option (List Char) :=
  if lit.isPrefixOf cs then some (cs.drop lit.length) else none

/-- Case-insensitive literal match (for `re.IGNORECASE` patterns). -/
def eatLitCI (lit : List Char) (cs : List Char) : Option (List Char) :=
  if lowerChars (cs.take lit.length) = lit then some (cs.drop lit.length) else none

/-- Greedy `\d+`. -/
def eatDigits1 (cs : List Char) : Option (List Char × List Char) :=
  let ds := cs.takeWhile pyIsDigit
  if ds.isEmpty then none else some (ds, cs.drop ds.length)

/-- `[A-Z][a-z]{2}` (a 3-letter amino-acid code). -/
def eat3L (cs : List Char) : Option (List Char × List Char) :=
  match cs with
  | a :: b :: c :: rest =>
      if pyIsUpperAlpha a && pyIsLowerAlpha b && pyIsLowerAlpha c then
        some ([a, b, c], rest)
      else none
  | _ => none

/-- Candidates `(consumed, rest)` for `take k` of a digit run, `k` from the
full run down to `0` (the backtracking order of a greedy `\d*`). -/
def digitRunCandidates (pre : List Char) (cs : List Char) : List (List Char × List Char) :=
  let ds := cs.takeWhile pyIsDigit
  let rest := cs.drop ds.length
  (List.range (ds.length + 1)).map
    (fun i => (pre ++ ds.take (ds.length - i), (ds.drop (ds.length - i)) ++ rest))

/-- Candidates for `fs\*?\d*` in backtracking priority order: the `\*?`
takes the star first, and each branch enumerates its `\d*` greedily. -/
def fsCandidates (cs : List Char) : List (List Char × List Char) :=
  match eatLit ['f', 's'] cs with
  | none => []
  | some rest =>
      (match rest with
       | '*' :: r => digitRunCandidates ['f', 's', '*'] r
       | _ => [])
      ++ digitRunCandidates ['f', 's'] rest

/-- Case-insensitive 3-char literal candidate (`[Dd][Ee][Ll]` and friends). -/
def ciTriCandidate (lit : List Char) (cs : List Char) : List (List Char × List Char) :=
  match cs with
  | a :: b :: c :: rest =>
      if lowerChars [a, b, c] = lit then [([a, b, c], rest)] else []
  | _ => []

/-- Candidates for `[A-Z*]|fs\*?\d*|\*|[Dd][Ee][Ll]|[Ii][Nn][Ss]|[Dd][Uu][Pp]`
(the final group of the `p.`-notation extraction pattern), in the source's
alternation order. -/
def pDotLastCandidates (cs : List Char) : List (List Char × List Char) :=
  (match cs with
   | c :: rest => if pyIsUpperAlpha c || c = '*' then [([c], rest)] else []
   | [] => [])
  ++ fsCandidates cs
  ++ (match cs with
      | '*' :: rest => [(['*'], rest)]
      | _ => [])
  ++ ciTriCandidate ['d', 'e', 'l'] cs
  ++ ciTriCandidate ['i', 'n', 's'] cs
  ++ ciTriCandidate ['d', 'u', 'p'] cs

/-- Candidates for `[A-Z*]|fs\*?\d*|[Dd][Ee][Ll]|[Ii][Nn][Ss]|[Dd][Uu][Pp]`
(final group of the short-notation pattern; no bare `\*` alternative). -/
def shortLastCandidates (cs : List Char) : List (List Char × List Char) :=
  (match cs with
   | c :: rest => if pyIsUpperAlpha c || c = '*' then [([c], rest)] else []
   | [] => [])
  ++ fsCandidates cs
  ++ ciTriCandidate ['d', 'e', 'l'] cs
  ++ ciTriCandidate ['i', 'n', 's'] cs
  ++ ciTriCandidate ['d', 'u', 'p'] cs

/-- `GenomicAnalystAgent.three_letter_aa_map`. -/
def threeLetterAAMap : List (String × String) :=
  [("CYS", "C"), ("ASP", "D"), ("SER", "S"), ("GLN", "Q"), ("LYS", "K"),
   ("ILE", "I"), ("PRO", "P"), ("THR", "T"), ("PHE", "F"), ("ASN", "N"),
   ("GLY", "G"), ("HIS", "H"), ("LEU", "L"), ("ARG", "R"), ("TRP", "W"),
   ("ALA", "A"), ("VAL", "V"), ("GLU", "E"), ("TYR", "Y"), ("MET", "M"),
   ("TER", "*")]

def aaMapLookup (k : String) : Option String :=
  (threeLetterAAMap.find? (fun p => p.1 = k)).map (·.2)

def aaMapGetD (k : String) (d : String) : String := (aaMapLookup k).getD d

/-! ### `p.`-notation extraction pattern
`[pP]\.(?:([A-Z][a-z]{2}))?([A-Z])(\d+)(?:([A-Z][a-z]{2}))?([A-Z*]|fs\*?\d*|\*|...)` -/

/-- Groups 2-5 of the extraction pattern starting after `[pP]\.` and the
optional first 3-letter group; returns `(aa1, pos, aa2_3l, aa2_ext, rest)`. -/
def pDotCore (cs : List Char) : Option (Char × List Char × Option (List Char) × List Char × List Char) :=
  match cs with
  | c1 :: rest1 =>
      if pyIsUpperAlpha c1 then
        match eatDigits1 rest1 with
        | some (pos, rest2) =>
            let withA23 : Option (Char × List Char × Option (List Char) × List Char × List Char) :=
              match eat3L rest2 with
              | some (a23, rest3) =>
                  match (pDotLastCandidates rest3).head? with
                  | some (ext, rest4) => some (c1, pos, some a23, ext, rest4)
                  | none => none
              | none => none
            match withA23 with
            | some r => some r
            | none =>
                match (pDotLastCandidates rest2).head? with
                | some (ext, rest4) => some (c1, pos, none, ext, rest4)
                | none => none
        | none => none
      else none
  | [] => none

/-- The variant string produced for one `p.`-notation match (source lines
204-217 of the agent). -/
def pDotVariantOf (aa1 : Char) (pos : List Char) (aa2_3l : Option (List Char))
    (aa2_ext : List Char) : List String :=
  let aa1s : String := ⟨[aa1]⟩
  let aa2norm : String :=
    match aa2_3l with
    | some a23 => aaMapGetD (strUpper ⟨a23⟩) ⟨aa2_ext⟩
    | none =>
        if aa2_ext.length = 1 && (aa2_ext.all pyIsAlpha) then strUpper ⟨aa2_ext⟩
        else ⟨aa2_ext⟩
  if aa1s ≠ "" ∧ (⟨pos⟩ : String) ≠ "" ∧ aa2norm ≠ "" then
    [aa1s ++ (⟨pos⟩ : String) ++ aa2norm]
  else if (⟨pos⟩ : String) ≠ "" ∧ aa2norm ≠ "" then [(⟨pos⟩ : String) ++ aa2norm]
  else []

def pDotParseAt (_prev : Option Char) (cs : List Char) : Option (Nat × List String) :=
  match cs with
  | p :: '.' :: rest =>
      if p = 'p' ∨ p = 'P' then
        let attempt : Option (Char × List Char × Option (List Char) × List Char × List Char) :=
          match eat3L rest with
          | some (_a13, rest1) =>
              match pDotCore rest1 with
              | some r => some r
              | none => pDotCore rest
          | none => pDotCore rest
        match attempt with
        | some (aa1, pos, aa2_3l, ext, rest4) =>
            some (cs.length - rest4.length, pDotVariantOf aa1 pos aa2_3l ext)
        | none => none
      else none
  | _ => none

/-! ### Short-notation pattern
`(?<![a-zA-Z\d])([A-Z])(\d+)([A-Z*]|fs\*?\d*|...)(?![a-zA-Z\d])` -/

def notAlphaDigitBefore (prev : Option Char) : Bool :=
  match prev with
  | none => true
  | some c => !(pyIsAlpha c || pyIsDigit c)

def notAlphaDigitAfter (cs : List Char) : Bool :=
  match cs with
  | [] => true
  | c :: _ => !(pyIsAlpha c || pyIsDigit c)

def firstPassingLookahead (cands : List (List Char × List Char)) :
    Option (List Char × List Char) :=
  cands.find? (fun cr => notAlphaDigitAfter cr.2)

def shortParseAt (prev : Option Char) (cs : List Char) : Option (Nat × List String) :=
  if notAlphaDigitBefore prev then
    match cs with
    | c1 :: rest1 =>
        if pyIsUpperAlpha c1 then
          match eatDigits1 rest1 with
          | some (pos, rest2) =>
              match firstPassingLookahead (shortLastCandidates rest2) with
              | some (ext, rest3) =>
                  some (cs.length - rest3.length,
                    [strUpper ⟨[c1]⟩ ++ (⟨pos⟩ : String) ++ strUpper ⟨ext⟩])
              | none => none
          | none => none
        else none
    | [] => none
  else none

/-! ### Exon pattern
`(?:exon|ex)\s*(\d+)\s*(?:deletion|del|insertion|ins|mutation|variant|alteration|mut|var|alt)\b`,
`re.IGNORECASE` -/

def exonSuffixAlts : List (List Char) :=
  ["deletion".data, "del".data, "insertion".data, "ins".data, "mutation".data,
   "variant".data, "alteration".data, "mut".data, "var".data, "alt".data]

def wordBoundaryAfter (cs : List Char) : Bool :=
  match cs with
  | [] => true
  | c :: _ => !pyIsWordChar c

def exonAfterKw (cs : List Char) : Option (List Char × List Char) :=
  let ws1 := cs.takeWhile pyIsSpaceChar
  let cs1 := cs.drop ws1.length
  match eatDigits1 cs1 with
  | some (num, cs2) =>
      let ws2 := cs2.takeWhile pyIsSpaceChar
      let cs3 := cs2.drop ws2.length
      match exonSuffixAlts.findSome?
        (fun alt =>
          match eatLitCI alt cs3 with
          | some rest => if wordBoundaryAfter rest then some rest else none
          | none => none) with
      | some rest => some (num, rest)
      | none => none
  | none => none

def exonParseAt (_prev : Option Char) (cs : List Char) : Option (Nat × List String) :=
  let attempt : Option (List Char × List Char) :=
    match eatLitCI ("exon".data) cs with
    | some r1 =>
        match exonAfterKw r1 with
        | some a => some a
        | none =>
            match eatLitCI ("ex".data) cs with
            | some r2 => exonAfterKw r2
            | none => none
    | none =>
        match eatLitCI ("ex".data) cs with
        | some r2 => exonAfterKw r2
        | none => none
  match attempt with
  | some (num, rest) =>
      let len := cs.length - rest.length
      let group0lower := lowerChars (cs.take len)
      let changeType : String :=
        if listContainsSub group0lower ("del".data) then "DEL"
        else if listContainsSub group0lower ("ins".data) then "INS"
        else "MUT"
      some (len, ["EXON" ++ (⟨num⟩ : String) ++ changeType])
  | none => none

/-! ### Slash pattern
`(?<![a-zA-Z\d])([A-Z])(\d+)([A-Z*])\/([A-Z*])(?![a-zA-Z\d])`, `re.IGNORECASE` -/

def pyIsAlphaOrStar (c : Char) : Bool := pyIsAlpha c || c = '*'

def slashParseAt (prev : Option Char) (cs : List Char) : Option (Nat × List String) :=
  if notAlphaDigitBefore prev then
    match cs with
    | a1 :: rest1 =>
        if pyIsAlpha a1 then
          match eatDigits1 rest1 with
          | some (pos, rest2) =>
              match rest2 with
              | b1 :: '/' :: b2 :: rest3 =>
                  if pyIsAlphaOrStar b1 && pyIsAlphaOrStar b2 && notAlphaDigitAfter rest3 then
                    some (cs.length - rest3.length,
                      [strUpper ⟨[a1]⟩ ++ (⟨pos⟩ : String) ++ strUpper ⟨[b1]⟩,
                       strUpper ⟨[a1]⟩ ++ (⟨pos⟩ : String) ++ strUpper ⟨[b2]⟩])
                  else none
              | _ => none
          | none => none
        else none
    | [] => none
  else none

/-! ### General-type pattern
`\b([A-Za-z]+(?:[-_][A-Za-z]+)*)\s*(?:mutation|variant|alteration)\b`,
`re.IGNORECASE`.  The group star requires genuine backtracking (both over
the number of `[-_][A-Za-z]+` iterations and over the greedy alpha runs),
implemented here depth-first in Python's priority order. -/

def gtpSuffix (cs : List Char) : Option (List Char) :=
  let ws := cs.takeWhile pyIsSpaceChar
  let cs1 := cs.drop ws.length
  ["mutation".data, "variant".data, "alteration".data].findSome?
    (fun alt =>
      match eatLitCI alt cs1 with
      | some rest => if wordBoundaryAfter rest then some rest else none
      | none => none)

/-- Continue after a completed alpha segment: greedily try one more
`[-_][A-Za-z]+` iteration (segment prefixes of length `k` from the maximal
run down to `1`, depth-first), else close the group and match the suffix.
Each iteration consumes at least two characters, so fuel equal to the text
length suffices. -/
def gtpTail : Nat → List Char → Option (List Char × List Char)
  | 0, _ => none
  | fuel + 1, cs =>
      let viaIter : Option (List Char × List Char) :=
        match cs with
        | j :: rest =>
            if j = '-' ∨ j = '_' then
              let seg := rest.takeWhile pyIsAlpha
              if seg.isEmpty then none
              else
                (List.range seg.length).findSome?
                  (fun i =>
                    let k := seg.length - i
                    match gtpTail fuel (rest.drop k) with
                    | some (g, r) => some (j :: (seg.take k ++ g), r)
                    | none => none)
            else none
        | [] => none
      match viaIter with
      | some r => some r
      | none => (gtpSuffix cs).map (fun rest => ([], rest))

/-- Backtracking over the length of the first `[A-Za-z]+` segment of the
group, `k` from the maximal run down to `1`. -/
def gtpFirstTries (cs seg : List Char) : Nat → Option (List Char × List Char)
  | 0 => none
  | k + 1 =>
      match gtpTail cs.length (cs.drop (k + 1)) with
      | some (g, r) => some (seg.take (k + 1) ++ g, r)
      | none => gtpFirstTries cs seg k

def gtpParseAt (prev : Option Char) (cs : List Char) : Option (Nat × List String) :=
  let boundaryOk : Bool :=
    match prev with
    | none => true
    | some pc => !pyIsWordChar pc
  if boundaryOk then
    let seg := cs.takeWhile pyIsAlpha
    if seg.isEmpty then none
    else
      match gtpFirstTries cs seg seg.length with
      | some (g, rest) =>
          -- `match.group(1).replace(" ", "_")`: the group cannot contain a
          -- space, so the replace is the identity on it
          some (cs.length - rest.length, [(⟨g⟩ : String)])
      | none => none
  else none

/-! ### Standalone 3-letter pattern
`(?<![a-zA-Z\d])([A-Z][a-z]{2})(\d+)([A-Z][a-z]{2})(?!\d?[a-zA-Z])` -/

def threeLLookaheadOk (cs : List Char) : Bool :=
  match cs with
  | [] => true
  | c :: rest =>
      if pyIsAlpha c then false
      else if pyIsDigit c then
        match rest with
        | [] => true
        | d :: _ => !pyIsAlpha d
      else true

def threeLParseAt (prev : Option Char) (cs : List Char) : Option (Nat × List String) :=
  if notAlphaDigitBefore prev then
    match eat3L cs with
    | some (a13, rest1) =>
        match eatDigits1 rest1 with
        | some (pos, rest2) =>
            match eat3L rest2 with
            | some (a23, rest3) =>
                if threeLLookaheadOk rest3 then
                  let out : List String :=
                    match aaMapLookup (strUpper ⟨a13⟩), aaMapLookup (strUpper ⟨a23⟩) with
                    | some x, some y => [x ++ (⟨pos⟩ : String) ++ y]
                    | _, _ => []
                  some (cs.length - rest3.length, out)
                else none
            | none => none
        | none => none
    | none => none
  else none

/-! ### `re.finditer` scanning -/

/-- Non-overlapping left-to-right scan: at each position try the parser; on
a match emit its output and resume after the consumed text, else advance one
character.  `prev` carries the previous character for lookbehinds. -/
def scanIter (parse : Option Char → List Char → Option (Nat × List String)) :
    Nat → Option Char → List Char → List String
  | 0, _, _ => []
  | _ + 1, _, [] => []
  | fuel + 1, prev, c :: rest =>
      match parse prev (c :: rest) with
      | some (len, out) =>
          let len' := max len 1
          out ++ scanIter parse fuel (((c :: rest).take len').getLast?) ((c :: rest).drop len')
      | none => scanIter parse fuel (some c) rest

def runScan (parse : Option Char → List Char → Option (Nat × List String))
    (cs : List Char) : List String :=
  scanIter parse (cs.length + 1) none cs

/-- `GenomicAnalystAgent._extract_specific_variants`. -/
def extractSpecificVariants (q : String) : List String :=
  let cs := q.data
  let l1 := runScan pDotParseAt cs
  let l2 := runScan shortParseAt cs
  let l3 := runScan exonParseAt cs
  let l4 := runScan slashParseAt cs
  let l5 := runScan gtpParseAt cs
  let l6 := runScan threeLParseAt cs
  let genericFilterTerms : List String := ["MUTATION", "VARIANT", "ALTERATION"]
  let kept := (pySet (l1 ++ l2 ++ l3 ++ l4 ++ l5 ++ l6)).filter
    (fun v => !(genericFilterTerms.contains (strUpper v)) || listContainsSub v.data ['_'])
  sortStrings kept

/-! ## `_normalize_variant_name`
`re.match(r"^[pP]\.(?:([A-Z][a-z]{2}))?([A-Z*])(\d+)(?:([A-Z][a-z]{2}))?([A-Z*]|fs\*?\d*)$", v)` -/

def normLastCandidates (cs : List Char) : List (List Char × List Char) :=
  (match cs with
   | c :: rest => if pyIsUpperAlpha c || c = '*' then [([c], rest)] else []
   | [] => [])
  ++ fsCandidates cs

/-- First candidate that consumes the entire remaining text (the `$`). -/
def normLastAtEnd (cs : List Char) : Option (List Char) :=
  ((normLastCandidates cs).find? (fun cr => cr.2.isEmpty)).map (·.1)

def normCore (cs : List Char) : Option (Char × List Char × Option (List Char) × List Char) :=
  match cs with
  | c1 :: rest1 =>
      if pyIsUpperAlpha c1 || c1 = '*' then
        match eatDigits1 rest1 with
        | some (pos, rest2) =>
            let withA23 : Option (Char × List Char × Option (List Char) × List Char) :=
              match eat3L rest2 with
              | some (a23, rest3) =>
                  match normLastAtEnd rest3 with
                  | some ext => some (c1, pos, some a23, ext)
                  | none => none
              | none => none
            match withA23 with
            | some r => some r
            | none =>
                match normLastAtEnd rest2 with
                | some ext => some (c1, pos, none, ext)
                | none => none
        | none => none
      else none
  | [] => none

/-- `GenomicAnalystAgent._normalize_variant_name`. -/
def normalizeVariantName (v : String) : String :=
  let cs := v.data
  let matched : Option (Char × List Char × Option (List Char) × List Char) :=
    match cs with
    | p :: '.' :: rest =>
        if p = 'p' ∨ p = 'P' then
          match eat3L rest with
          | some (_a13, rest1) =>
              match normCore rest1 with
              | some r => some r
              | none => normCore rest
          | none => normCore rest
        else none
    | _ => none
  match matched with
  | some (aa1, pos, aa2_3l, aa2_ext) =>
      let aa1f : String := ⟨[aa1]⟩
      let aa2f : String :=
        if aa2_ext.length = 1 && aa2_ext.all pyIsAlpha then strUpper ⟨aa2_ext⟩
        else
          match aa2_3l with
          | some a23 => aaMapGetD (strUpper ⟨a23⟩) "?"
          | none => ⟨aa2_ext⟩
      if aa1f ≠ "" ∧ (⟨pos⟩ : String) ≠ "" ∧ aa2f ≠ "" then
        aa1f ++ (⟨pos⟩ : String) ++ aa2f
      else strUpper v
  | none => strUpper v

/-! ## Data model (the pydantic models of the agent) -/

structure SimulatedTools where
  sift : Option String
  polyphen : Option String
deriving Repr, DecidableEq

structure MockKnowledgebases where
  clinvar_significance : Option String
  oncokb_level : Option String
deriving Repr, DecidableEq

structure SimulatedVEPDetail where
  input_variant_query : String
  gene_symbol : String
  protein_change : Option String
  canonical_variant_id : Option String
  simulated_classification : String
  classification_reasoning : String
  predicted_consequence : Option String
  simulated_tools : Option SimulatedTools
  mock_knowledgebases : Option MockKnowledgebases
  variant_type_from_input : Option String
  data_source : Option String
deriving Repr, DecidableEq

structure GeneSummaryStatus where
  status : String
  details : String
deriving Repr, DecidableEq

structure GenomicAnalysisResult where
  criterion_id : String
  criterion_query : String
  status : String
  evidence : String
  gene_summary_statuses : List (String × GeneSummaryStatus)
  simulated_vep_details : List SimulatedVEPDetail
  clinical_significance_context : Option String
  errors : List String
deriving Repr, DecidableEq

/-- One record of the `patient_mutations` list.  The agent reads the keys
`hugo_gene_symbol` (with default `""`), `protein_change` and `variant_type`;
a record missing the gene key behaves as the empty string. -/
structure PatientVariant where
  hugo_gene_symbol : String
  protein_change : Option String
  variant_type : Option String
deriving Repr, DecidableEq

/-! ## The mock Evo2 API (`backend/api_mocks/mock_evo2_api.py`) -/

/-- One entry of `KNOWN_VARIANT_CLASSIFICATIONS` /
`GENERAL_VARIANT_TYPE_EFFECTS_MOCK`. -/
structure MockRow where
  classification : String
  reasoning : String
  consequence : String
  sift : String
  polyphen : String
  clinvar : String
  oncokb : String
deriving Repr, DecidableEq

/-- The gene-indexed part of `KNOWN_VARIANT_CLASSIFICATIONS` (the
`DEFAULT_PATHOGENIC` / `DEFAULT_BENIGN` / `DEFAULT_VUS` top-level entries
are not variant tables; they are only ever read as whole rows in step 3 and
step 4 of `get_variant_effect_mock` and are embedded as the separate rows
below). -/
def knownVariantClassifications (g v : String) : Option MockRow :=
  if g = "BRAF" then
    if v = "V600E" then
      some ⟨"PATHOGENIC_BY_RULE",
        "BRAF V600E is a well-known activating mutation targeted by multiple therapies.",
        "missense_variant", "deleterious (mock)", "probably_damaging (mock)",
        "Pathogenic (mock)", "Level 1 (mock)"⟩
    else if v = "V600K" then
      some ⟨"PATHOGENIC_BY_RULE", "BRAF V600K is a known activating mutation.",
        "missense_variant", "deleterious (mock)", "probably_damaging (mock)",
        "Pathogenic (mock)", "Level 1 (mock)"⟩
    else none
  else if g = "EGFR" then
    if v = "L858R" then
      some ⟨"PATHOGENIC_BY_RULE",
        "EGFR L858R is a common activating mutation in lung cancer.",
        "missense_variant", "deleterious (mock)", "probably_damaging (mock)",
        "Pathogenic (mock)", "Level A2 (mock)"⟩
    else if v = "T790M" then
      some ⟨"RESISTANCE_BY_RULE",
        "EGFR T790M is a common resistance mutation to EGFR inhibitors.",
        "missense_variant", "deleterious (mock)", "possibly_damaging (mock)",
        "Pathogenic (mock)", "Resistance (mock)"⟩
    else none
  else if g = "TP53" then
    if v = "R248Q" then
      some ⟨"PATHOGENIC_BY_RULE", "TP53 R248Q is a known hotspot oncogenic mutation.",
        "missense_variant", "deleterious (mock)", "probably_damaging (mock)",
        "Pathogenic (mock)", "Likely Oncogenic (mock)"⟩
    else if v = "P72R" then
      some ⟨"UNCLEAR_BY_RULE",
        "TP53 P72R is a common polymorphism with unclear clinical significance in many contexts.",
        "missense_variant", "tolerated (mock)", "benign (mock)",
        "Benign/Likely_Benign (mock)", "N/A (mock)"⟩
    else none
  else if g = "KRAS" then
    if v = "G12C" then
      some ⟨"PATHOGENIC_BY_RULE",
        "KRAS G12C is an oncogenic mutation with targeted therapies available.",
        "missense_variant", "deleterious (mock)", "probably_damaging (mock)",
        "Pathogenic (mock)", "Level 2B (mock)"⟩
    else if v = "G12D" then
      some ⟨"PATHOGENIC_BY_RULE", "KRAS G12D is a common oncogenic mutation.",
        "missense_variant", "deleterious (mock)", "probably_damaging (mock)",
        "Pathogenic (mock)", "Likely Oncogenic (mock)"⟩
    else none
  else none

def defaultPathogenicRow : MockRow :=
  ⟨"PREDICTED_PATHOGENIC_BY_MOCK_EVO2",
   "Mock Evo2 simulation based on query intent (pathogenic). Specific evidence not found in mock DB.",
   "unknown", "unknown (mock)", "unknown (mock)", "Uncertain significance (mock)", "N/A (mock)"⟩

def defaultBenignRow : MockRow :=
  ⟨"PREDICTED_BENIGN_BY_MOCK_EVO2",
   "Mock Evo2 simulation based on query intent (benign). Specific evidence not found in mock DB.",
   "unknown", "tolerated (mock)", "benign (mock)", "Benign (mock)", "N/A (mock)"⟩

def defaultVusRow : MockRow :=
  ⟨"UNCLEAR_BY_MOCK_EVO2",
   "Mock Evo2 simulation: variant significance is unclear or not found in mock DB.",
   "unknown", "unknown (mock)", "unknown (mock)", "Uncertain significance (mock)", "N/A (mock)"⟩

/-- `GENERAL_VARIANT_TYPE_EFFECTS_MOCK` (without its `DEFAULT` key, embedded
as `generalDefaultRow`). -/
def generalVariantTypeEffects (t : String) : Option MockRow :=
  if t = "Nonsense_Mutation" then
    some ⟨"LIKELY_PATHOGENIC_BY_MOCK_EVO2",
      "Nonsense mutations typically lead to truncated proteins, often causing loss of function.",
      "nonsense", "deleterious (mock)", "probably_damaging (mock)",
      "Likely Pathogenic (mock general)", "Likely Oncogenic (mock general)"⟩
  else if t = "Frameshift_Variant" then
    some ⟨"LIKELY_PATHOGENIC_BY_MOCK_EVO2",
      "Frameshift mutations alter the reading frame, usually resulting in a non-functional protein.",
      "frameshift_variant", "deleterious (mock)", "probably_damaging (mock)",
      "Likely Pathogenic (mock general)", "Likely Oncogenic (mock general)"⟩
  else if t = "Splice_Site" then
    some ⟨"LIKELY_PATHOGENIC_BY_MOCK_EVO2",
      "Splice site mutations can lead to aberrant splicing and non-functional proteins.",
      "splice_acceptor_variant or splice_donor_variant", "deleterious (mock)",
      "probably_damaging (mock)", "Likely Pathogenic (mock general)",
      "Likely Oncogenic (mock general)"⟩
  else if t = "Missense_Mutation" then
    some ⟨"UNCLEAR_BY_MOCK_EVO2",
      "The impact of a missense mutation is variable and requires specific evidence for classification.",
      "missense_variant", "unknown (mock)", "unknown (mock)",
      "Uncertain significance (mock general)", "N/A (mock general)"⟩
  else if t = "In_Frame_Del" then
    some ⟨"UNCLEAR_BY_MOCK_EVO2",
      "In-frame deletions remove amino acids without changing the reading frame; impact is variable.",
      "inframe_deletion", "unknown (mock)", "unknown (mock)",
      "Uncertain significance (mock general)", "N/A (mock general)"⟩
  else if t = "In_Frame_Ins" then
    some ⟨"UNCLEAR_BY_MOCK_EVO2",
      "In-frame insertions add amino acids without changing the reading frame; impact is variable.",
      "inframe_insertion", "unknown (mock)", "unknown (mock)",
      "Uncertain significance (mock general)", "N/A (mock general)"⟩
  else if t = "Silent" then
    some ⟨"LIKELY_BENIGN_BY_MOCK_EVO2",
      "Silent mutations do not change the amino acid sequence, generally considered benign.",
      "synonymous_variant", "tolerated (mock)", "benign (mock)",
      "Benign (mock general)", "N/A (mock general)"⟩
  else none

def generalDefaultRow : MockRow :=
  ⟨"UNCLEAR_BY_MOCK_EVO2", "Variant type effect not specifically modeled in Mock Evo2.",
   "unknown", "unknown (mock)", "unknown (mock)", "Uncertain significance (mock general)",
   "N/A (mock general)"⟩

def mockDataSource : String := "BeatCancer_MockEvo2_v1.5.1"

/-- The regex `r"^[pP]\\.([A-Za-z0-9*]+)$"` of `get_variant_effect_mock`:
`[pP]`, a literal backslash (the raw-string `\\` escapes the backslash, not
the dot), any one character, then the group `[A-Za-z0-9*]+` to the end. -/
def mockProteinChangeMatch (cs : List Char) : Option (List Char) :=
  match cs with
  | p :: b :: _any :: rest =>
      if (p = 'p' ∨ p = 'P') ∧ b = '\\' ∧ rest ≠ [] ∧
          rest.all (fun c => pyIsAlpha c || pyIsDigit c || c = '*') then
        some rest
      else none
  | _ => none

def mockDetailFromRow (row : MockRow) (vq g : String) (pc : Option String)
    (canonical : Option String) (vt : Option String) : SimulatedVEPDetail :=
  { input_variant_query := vq, gene_symbol := g, protein_change := pc,
    canonical_variant_id := canonical,
    simulated_classification := row.classification,
    classification_reasoning := row.reasoning,
    predicted_consequence := some row.consequence,
    simulated_tools := some ⟨some row.sift, some row.polyphen⟩,
    mock_knowledgebases := some ⟨some row.clinvar, some row.oncokb⟩,
    variant_type_from_input := vt,
    data_source := some mockDataSource }

/-- Does `re.search(r"[A-Za-z]\d+[A-Za-z*]$", s)` succeed? -/
def endsLetterDigitsLetterStar (cs : List Char) : Bool :=
  match cs.reverse with
  | last :: rest =>
      if pyIsAlpha last || last = '*' then
        let ds := rest.takeWhile pyIsDigit
        !ds.isEmpty &&
          (match rest.drop ds.length with
           | c :: _ => pyIsAlpha c
           | [] => false)
      else false
  | [] => false

/-- `mock_evo2_api.get_variant_effect_mock`. -/
def getVariantEffectMock (gene_symbol variant_query : String)
    (variant_type query_intent : Option String) : SimulatedVEPDetail :=
  let pcm := mockProteinChangeMatch variant_query.data
  let normalized : String :=
    match pcm with
    | some grp => ⟨grp⟩
    | none => variant_query
  let basePC : Option String :=
    if !(strEndsWith variant_query "_Mutation") && !(strEndsWith variant_query "_Variant")
        && variant_query ≠ "Splice_Site" then some normalized
    else none
  let baseCanonical : String :=
    match pcm with
    | some _ => gene_symbol ++ ":p." ++ normalized
    | none => gene_symbol ++ ":" ++ variant_query
  match knownVariantClassifications gene_symbol normalized with
  | some row =>
      mockDetailFromRow row variant_query gene_symbol (some normalized)
        (some (gene_symbol ++ ":p." ++ normalized)) variant_type
  | none =>
      let typeToCheck : Option String :=
        if (generalVariantTypeEffects variant_query).isSome then some variant_query
        else
          match variant_type with
          | some vt =>
              if (generalVariantTypeEffects vt).isSome then some vt
              else if strContainsSub vt "Frame_Shift" then some "Frameshift_Variant"
              else if strContainsSub vt "Splice_Site" then some "Splice_Site"
              else none
          | none => none
      match typeToCheck with
      | some t =>
          match generalVariantTypeEffects t with
          | some row =>
              mockDetailFromRow row variant_query gene_symbol none
                (some (gene_symbol ++ ":" ++ t)) variant_type
          | none =>
              mockDetailFromRow generalDefaultRow variant_query gene_symbol none
                (some (gene_symbol ++ ":" ++ variant_query)) variant_type
      | none =>
          let intentRow : Option (String × MockRow) :=
            match query_intent with
            | some qi =>
                if qi = "pathogenic" then some (qi, defaultPathogenicRow)
                else if qi = "benign" then some (qi, defaultBenignRow)
                else none
            | none => none
          match intentRow with
          | some (qi, row) =>
              let row' : MockRow :=
                { row with reasoning :=
                    "Mock Evo2 simulation based on query intent (\x27" ++ qi ++ "\x27). "
                      ++ row.reasoning }
              mockDetailFromRow row' variant_query gene_symbol none
                (some (gene_symbol ++ ":IntentBasedQuery-" ++ qi)) variant_type
          | none =>
              if pcm.isSome || endsLetterDigitsLetterStar normalized.data then
                mockDetailFromRow defaultVusRow variant_query gene_symbol basePC
                  (some baseCanonical) variant_type
              else
                mockDetailFromRow generalDefaultRow variant_query gene_symbol none
                  (some (gene_symbol ++ ":" ++ variant_query)) variant_type

/-! ## The external predictor boundary

`_classify_variant_simulated` wraps every predictor call in `try/except`;
a raised exception is the `Except.error` case of the `Predictor` parameter.
The reference mock above never raises. -/

def Predictor : Type :=
  String → String → Option String → Option String → Except String SimulatedVEPDetail

def realMock : Predictor := fun g vq vt qi => .ok (getVariantEffectMock g vq vt qi)

/-! ## `_classify_variant_simulated` -/

def queryIntentForMockApi (intent : IntentDetails) : Option String :=
  if intent.status_keyword = "ANY_MUTATION" ∧ intent.primary_intent ≠ "GET_EFFECT" then none
  else if intent.primary_intent = "GET_EFFECT" then none
  else some intent.status_keyword

/-- `if pv_protein_change and normalize(pv_protein_change) == qv` (Python
truthiness: `None` and `""` fail the first conjunct). -/
def matchesQueryVariant (qv : String) (pv : PatientVariant) : Bool :=
  match pv.protein_change with
  | some s => s != "" && normalizeVariantName s == qv
  | none => false

/-- `variant_type_for_api` of scenario 1: the `variant_type` of the first
patient record whose normalized protein change equals the query variant. -/
def scenario1VariantType (gl : List PatientVariant) (qv : String) : Option String :=
  (gl.find? (matchesQueryVariant qv)).bind (fun pv => pv.variant_type)

/-- The placeholder detail appended in the scenario-1 / scenario-3 `except`
branches (all optional fields default to `None`). -/
def errorDetailBasic (vq g e : String) : SimulatedVEPDetail :=
  { input_variant_query := vq, gene_symbol := g, protein_change := none,
    canonical_variant_id := none, simulated_classification := "ERROR_MOCK_API",
    classification_reasoning := e, predicted_consequence := none,
    simulated_tools := none, mock_knowledgebases := none,
    variant_type_from_input := none, data_source := none }

/-- The placeholder detail appended in the scenario-2 `except` branch. -/
def errorDetailScenario2 (vq g e : String) (pv : PatientVariant) : SimulatedVEPDetail :=
  { input_variant_query := vq, gene_symbol := g, protein_change := pv.protein_change,
    canonical_variant_id := none, simulated_classification := "ERROR_MOCK_API",
    classification_reasoning := e, predicted_consequence := none,
    simulated_tools := none, mock_knowledgebases := none,
    variant_type_from_input := pv.variant_type, data_source := none }

def scenario1Detail (pred : Predictor) (g : String) (qi : Option String)
    (gl : List PatientVariant) (qv : String) : SimulatedVEPDetail :=
  match pred g qv (scenario1VariantType gl qv) qi with
  | .ok resp => resp
  | .error e => errorDetailBasic qv g e

def scenario1Err (pred : Predictor) (g : String) (qi : Option String)
    (gl : List PatientVariant) (qv : String) : Option String :=
  match pred g qv (scenario1VariantType gl qv) qi with
  | .ok _ => none
  | .error e => some ("Mock API Error (query variant " ++ qv ++ "): " ++ e)

/-- `variant_query_for_api` of scenario 2 (Python truthiness of the two
optional fields: `protein_change` wins when non-empty, else
`variant_type`). -/
def usableQuery (pv : PatientVariant) : Option String :=
  match optTruthy pv.protein_change with
  | some s => some s
  | none => optTruthy pv.variant_type

def reprOptStr : Option String → String
  | some s => "\x27" ++ s ++ "\x27"
  | none => "None"

/-- Python `repr` of a patient-variant dict (used in one error message). -/
def reprPatientVariant (pv : PatientVariant) : String :=
  "\x7b\x27hugo_gene_symbol\x27: \x27" ++ pv.hugo_gene_symbol
    ++ "\x27, \x27protein_change\x27: " ++ reprOptStr pv.protein_change
    ++ ", \x27variant_type\x27: " ++ reprOptStr pv.variant_type ++ "\x7d"

def scenario2Detail (pred : Predictor) (g : String) (qi : Option String)
    (pv : PatientVariant) (vq : String) : SimulatedVEPDetail :=
  match pred g vq pv.variant_type qi with
  | .ok resp => resp
  | .error e => errorDetailScenario2 vq g e pv

def scenario2Err (pred : Predictor) (g : String) (qi : Option String)
    (pv : PatientVariant) : Option String :=
  match usableQuery pv with
  | none =>
      some ("Skipping patient variant in " ++ g
        ++ " due to missing protein_change and variant_type: " ++ reprPatientVariant pv)
  | some vq =>
      match pred g vq pv.variant_type qi with
      | .ok _ => none
      | .error e => some ("Mock API Error (patient variant " ++ vq ++ "): " ++ e)

def scenario2Matched (pred : Predictor) (g : String) (qi : Option String)
    (pv : PatientVariant) : Option String :=
  match usableQuery pv with
  | none => none
  | some vq =>
      match pred g vq pv.variant_type qi with
      | .ok _ => (optTruthy pv.protein_change).map normalizeVariantName
      | .error _ => none

def scenario3Items (pred : Predictor) (g : String) (intent : IntentDetails) :
    List SimulatedVEPDetail × List String :=
  if intent.primary_intent = "CHECK_PRESENCE" ∧ intent.status_keyword = "WILD_TYPE" then
    match pred g "Wild_Type" none (some "benign") with
    | .ok resp =>
        ([{ resp with
              simulated_classification := "WILD_TYPE_CONFIRMED",
              classification_reasoning :=
                "Patient has no mutations in " ++ g ++ ". Confirmed Wild-Type status.",
              protein_change := none,
              canonical_variant_id := some (g ++ ":Wild_Type") }], [])
    | .error e =>
        ([errorDetailBasic "Wild_Type" g e],
         ["Mock API Error (gene wild-type call for " ++ g ++ "): " ++ e])
  else ([], [])

/-- `GenomicAnalystAgent._classify_variant_simulated`.  Returns
`(processed_vep_details, errors, matched_patient_variants)`.  The Python
set `normalized_query_variants` iterates in unspecified order; it is
represented by `pySet`, and every result proved below is insensitive to
that order. -/
def classifyVariantSimulated (pred : Predictor) (g : String)
    (patient_variants_for_gene : List PatientVariant)
    (specific_variants_from_query : List String)
    (intent : IntentDetails) :
    List SimulatedVEPDetail × List String × List String :=
  let qi := queryIntentForMockApi intent
  if specific_variants_from_query ≠ [] then
    let nqv := pySet (specific_variants_from_query.map normalizeVariantName)
    (nqv.map (scenario1Detail pred g qi patient_variants_for_gene),
     nqv.filterMap (scenario1Err pred g qi patient_variants_for_gene),
     nqv.filter (fun qv => ((patient_variants_for_gene.find? (matchesQueryVariant qv)).isSome)))
  else if patient_variants_for_gene ≠ [] then
    (patient_variants_for_gene.filterMap
       (fun pv => (usableQuery pv).map (scenario2Detail pred g qi pv)),
     patient_variants_for_gene.filterMap (scenario2Err pred g qi),
     patient_variants_for_gene.filterMap (scenario2Matched pred g qi))
  else
    let s3 := scenario3Items pred g intent
    (s3.1, s3.2, [])

/-! ## `_get_gene_summary_status` -/

/-- The `classification_priorities` list (source order). -/
def classificationPriorities : List String :=
  ["RESISTANCE_BY_RULE", "PREDICTED_RESISTANCE_BY_MOCK_EVO2",
   "PATHOGENIC_BY_RULE", "PREDICTED_PATHOGENIC_BY_MOCK_EVO2",
   "LIKELY_PATHOGENIC_BY_MOCK_EVO2",
   "ACTIVATING_BY_RULE", "PREDICTED_ACTIVATING_BY_MOCK_EVO2",
   "UNCLEAR_BY_RULE", "UNCLEAR_BY_MOCK_EVO2", "PREDICTED_VUS",
   "LIKELY_BENIGN_BY_MOCK_EVO2", "PREDICTED_BENIGN_BY_MOCK_EVO2",
   "WILD_TYPE_CONFIRMED"]

/-- The scan for `highest_priority_classification_found`: empty detail list
gives `WILD_TYPE_CONFIRMED`, otherwise the first priority level some detail
classification starts with, otherwise the initial value `WILD_TYPE`. -/
def highestClassificationFound (ds : List SimulatedVEPDetail) : String :=
  if ds.isEmpty then "WILD_TYPE_CONFIRMED"
  else
    match classificationPriorities.find?
      (fun lvl => ds.any (fun d => strStartsWith (strUpper d.simulated_classification) lvl)) with
    | some lvl => lvl
    | none => "WILD_TYPE"

/-- The substring-containment chain mapping the highest classification to
`gene_actual_status_term`. -/
def geneActualStatusTerm (h : String) : String :=
  if listContainsSub h.data ("RESISTANCE".data) then "RESISTANCE_MUTATION_DETECTED"
  else if listContainsSub h.data ("PATHOGENIC".data) then "PATHOGENIC_MUTATION_DETECTED"
  else if listContainsSub h.data ("ACTIVATING".data) then "ACTIVATING_MUTATION_DETECTED"
  else if listContainsSub h.data ("UNCLEAR".data) || listContainsSub h.data ("VUS".data) then
    "VUS_DETECTED"
  else if listContainsSub h.data ("BENIGN".data) then "BENIGN_VARIANT_DETECTED"
  else if listContainsSub h.data ("WILD_TYPE".data) then "WILD_TYPE_CONFIRMED"
  else "UNCLEAR"

/-- A value of `keyword_to_actual_term_map`: a single term or (for
`ANY_MUTATION`) a list of terms. -/
inductive TargetTerm where
  | one (s : String)
  | many (l : List String)
deriving Repr, DecidableEq

def keywordToActualTermMap (kw : String) : Option TargetTerm :=
  if kw = "ACTIVATING" then some (.one "ACTIVATING_MUTATION_DETECTED")
  else if kw = "PATHOGENIC/LOF" then some (.one "PATHOGENIC_MUTATION_DETECTED")
  else if kw = "RESISTANCE" then some (.one "RESISTANCE_MUTATION_DETECTED")
  else if kw = "WILD_TYPE" then some (.one "WILD_TYPE_CONFIRMED")
  else if kw = "ANY_MUTATION" then
    some (.many ["ACTIVATING_MUTATION_DETECTED", "PATHOGENIC_MUTATION_DETECTED",
                 "RESISTANCE_MUTATION_DETECTED", "VUS_DETECTED"])
  else none

/-- `GenomicAnalystAgent._get_gene_summary_status`. -/
def getGeneSummaryStatus (g : String) (ds : List SimulatedVEPDetail)
    (intent : IntentDetails) : GeneSummaryStatus :=
  let hi := highestClassificationFound ds
  let term := geneActualStatusTerm hi
  let base := "Gene " ++ g ++ ": Patient\x27s most significant variant status is \x27"
    ++ term ++ "\x27. Query intent: " ++ intent.primary_intent ++ " of \x27"
    ++ intent.status_keyword ++ "\x27."
  if intent.primary_intent = "GET_EFFECT" then
    ⟨term, base ++ " Reporting observed effect."⟩
  else
    match keywordToActualTermMap intent.status_keyword with
    | some tt =>
        let conditionMet : Bool :=
          match tt with
          | .one t => term == t
          | .many ts => ts.contains term
        let met : String :=
          if intent.primary_intent = "CHECK_PRESENCE" then
            if conditionMet then "MET" else "NOT_MET"
          else if intent.primary_intent = "CHECK_ABSENCE" then
            if !conditionMet then "MET" else "NOT_MET"
          else "UNCLEAR"
        ⟨met, base ++ " Criterion for " ++ intent.status_keyword ++ " was " ++ met ++ "."⟩
    | none =>
        ⟨"UNCLEAR",
         base ++ " Could not map query status keyword to patient\x27s variant status for MET/NOT_MET evaluation."⟩

/-! ## `_generate_clinical_significance_context` -/

/-- `clinical_context_map["DEFAULT"]` keyed by overall status. -/
def defaultStatusContext (st : String) : Option String :=
  if st = "MET" then
    some "The genomic criterion was met based on the patient\x27s mutation profile and simulated analysis."
  else if st = "NOT_MET" then
    some "The patient\x27s mutation profile did not meet the specific genomic criterion based on simulated analysis."
  else if st = "UNCLEAR" then
    some "The analysis for this genomic criterion was unclear, potentially due to ambiguous query, missing data, or variants of unknown significance."
  else if st = "ERROR" then some "An error occurred during the genomic analysis."
  else none

/-- The `DEFAULT_CONTEXT` entries of the gene-specific context maps. -/
def geneDefaultContext (g : String) : Option String :=
  if g = "EGFR" then
    some "EGFR is a key oncogene in several cancers, notably NSCLC. Its mutational status (wild-type, specific activating mutations, or resistance mutations) dictates eligibility for various targeted therapies."
  else if g = "BRAF" then
    some "BRAF is a proto-oncogene; specific mutations like V600E make it a therapeutic target."
  else if g = "KRAS" then
    some "KRAS is one of the most frequently mutated oncogenes. Its status is critical for treatment decisions in CRC and NSCLC, among others."
  else if g = "TP53" then
    some "TP53 is a critical tumor suppressor gene. Mutations are common and have broad implications for cancer development and treatment response."
  else if g = "ERBB2" then
    some "ERBB2 (HER2) is an important oncogene. Its status (amplification or specific mutations) is critical for targeted therapy in breast, gastric, lung, and other cancers."
  else none

def hasGeneContextMap (g : String) : Bool :=
  g = "EGFR" || g = "BRAF" || g = "KRAS" || g = "TP53" || g = "ERBB2"

def generateClinicalSignificanceContext (target_genes : List String)
    (overall : String) : String :=
  match target_genes.head? with
  | none => (defaultStatusContext overall).getD "Clinical context generation failed: No target genes."
  | some primary =>
      let ctx0 : Option String :=
        if hasGeneContextMap (strUpper primary) then geneDefaultContext (strUpper primary)
        else none
      let ctx1 : Option String :=
        match ctx0 with
        | some c => some c
        | none => defaultStatusContext overall
      "Context for " ++ primary ++ ": "
        ++ ctx1.getD "No specific clinical context snippet available for this scenario."

/-! ## Evidence building (the `evidence_builder` list of `run`) -/

def pyBool (b : Bool) : String := if b then "True" else "False"

def reprIntentDetails (i : IntentDetails) : String :=
  "\x7b\x27primary_intent\x27: \x27" ++ i.primary_intent
    ++ "\x27, \x27status_keyword\x27: \x27" ++ i.status_keyword
    ++ "\x27, \x27is_negated\x27: " ++ pyBool i.is_negated ++ "\x7d"

def reprStrList (l : List String) : String :=
  "[" ++ String.intercalate ", " (l.map (fun s => "\x27" ++ s ++ "\x27")) ++ "]"

def pyOptNone : Option String → String
  | some s => s
  | none => "None"

def detailEvidenceLines (d : SimulatedVEPDetail) : List String :=
  ["  Input: " ++ d.input_variant_query ++ " (Gene: " ++ d.gene_symbol ++ "), Type: "
     ++ pyOrDefault d.variant_type_from_input "N/A",
   "  Classified as: " ++ d.simulated_classification ++ " (Consequence: "
     ++ pyOrDefault d.predicted_consequence "N/A" ++ ")",
   "  Reason: " ++ d.classification_reasoning]
  ++ (match d.simulated_tools with
      | some t =>
          ["  Mock Tools: SIFT -> " ++ pyOptNone t.sift ++ ", PolyPhen -> " ++ pyOptNone t.polyphen]
      | none => [])
  ++ (match d.mock_knowledgebases with
      | some k =>
          ["  Mock KB: ClinVar -> " ++ pyOptNone k.clinvar_significance ++ ", OncoKB -> "
            ++ pyOptNone k.oncokb_level]
      | none => [])
  ++ ["  ----"]

/-! ## `run` -/

/-- Output of one iteration of the per-gene loop of `run`. -/
structure GeneStepOut where
  details : List SimulatedVEPDetail
  errs : List String
  summaries : List (String × GeneSummaryStatus)
  processed : Bool
deriving Repr, DecidableEq

def geneStep (pred : Predictor) (sv : List String) (intent : IntentDetails)
    (pvs : List PatientVariant) (g : String) : GeneStepOut :=
  if g = "UNKNOWN_GENE_CONTEXT" ∧ sv = [] then ⟨[], [], [], false⟩
  else
    let gmuts := pvs.filter (fun m => strUpper m.hugo_gene_symbol == strUpper g)
    let svEff := if g ≠ "UNKNOWN_GENE_CONTEXT" then sv else []
    let out := classifyVariantSimulated pred g gmuts svEff intent
    let sums : List (String × GeneSummaryStatus) :=
      if g ≠ "UNKNOWN_GENE_CONTEXT" then [(g, getGeneSummaryStatus g out.1 intent)] else []
    ⟨out.1, out.2.1, sums, true⟩

/-- The overall-status reduction over the per-gene summary statuses (source
lines 674-682): `MET` iff all are `MET`, else `NOT_MET` if any is
`NOT_MET`, else `UNCLEAR`. -/
def overallFromStatusValues (svals : List String) : String :=
  if svals = [] then "UNCLEAR"
  else if svals.all (fun s => s == "MET") then "MET"
  else if svals.any (fun s => s == "NOT_MET") then "NOT_MET"
  else "UNCLEAR"

/-- The error downgrade (source lines 684-687): with a non-`ERROR` status
and any recorded error, `MET`/`NOT_MET` becomes `UNCLEAR` and a note is
appended. -/
def finalizeStatus (overall : String) (errs : List String) : String × List String :=
  if errs ≠ [] ∧ overall ≠ "ERROR" then
    if overall = "MET" ∨ overall = "NOT_MET" then
      ("UNCLEAR",
       errs ++ ["Overall status changed to UNCLEAR due to non-critical errors during analysis."])
    else (overall, errs)
  else (overall, errs)

/-- The gene list the per-gene loop of `run` iterates over. -/
def loopGenesOf (tg : List String) : List String :=
  if tg = [] then ["UNKNOWN_GENE_CONTEXT"] else tg

def mainSteps (pred : Predictor) (pvs : List PatientVariant) (tg sv : List String)
    (intent : IntentDetails) : List GeneStepOut :=
  (loopGenesOf tg).map (geneStep pred sv intent pvs)

/-- The error appended before the loop when the query has variants but no
gene (source line 635). -/
def mainInitErrs (tg sv : List String) : List String :=
  if tg = [] ∧ sv ≠ [] then
    ["Query mentions specific variants but no gene context. Analysis might be incomplete or inaccurate."]
  else []

def mainSummaries (pred : Predictor) (pvs : List PatientVariant) (tg sv : List String)
    (intent : IntentDetails) : List (String × GeneSummaryStatus) :=
  (mainSteps pred pvs tg sv intent).flatMap (·.summaries)

def mainDetails (pred : Predictor) (pvs : List PatientVariant) (tg sv : List String)
    (intent : IntentDetails) : List SimulatedVEPDetail :=
  (mainSteps pred pvs tg sv intent).flatMap (·.details)

/-- The overall-status `if`/`elif` chain of `run` (source lines 659-682),
returning the chosen status together with the error messages the branch
appends. -/
def mainOverallPair (pred : Predictor) (pvs : List PatientVariant) (tg sv : List String)
    (intent : IntentDetails) : String × List String :=
  if ¬(mainSteps pred pvs tg sv intent).any (·.processed) ∧ sv = [] then
    ("UNCLEAR", ["Query did not lead to any specific gene or variant analysis."])
  else if mainSummaries pred pvs tg sv intent = [] ∧ sv ≠ [] ∧ tg = [] then
    ("UNCLEAR", ["Query variants analyzed without gene context, overall status unclear."])
  else if mainSummaries pred pvs tg sv intent = [] ∧ sv = [] then
    ("UNCLEAR", ["No gene summaries generated."])
  else
    (overallFromStatusValues ((mainSummaries pred pvs tg sv intent).map (fun p => p.2.status)), [])

/-- All errors accumulated before the downgrade check. -/
def mainErrsBefore (pred : Predictor) (pvs : List PatientVariant) (tg sv : List String)
    (intent : IntentDetails) : List String :=
  mainInitErrs tg sv ++ (mainSteps pred pvs tg sv intent).flatMap (·.errs)
    ++ (mainOverallPair pred pvs tg sv intent).2

/-- Final `(overall_status, all_errors)` after the downgrade check. -/
def mainFin (pred : Predictor) (pvs : List PatientVariant) (tg sv : List String)
    (intent : IntentDetails) : String × List String :=
  finalizeStatus (mainOverallPair pred pvs tg sv intent).1
    (mainErrsBefore pred pvs tg sv intent)

def mainEvidence (pred : Predictor) (genomic_query patient_id : String)
    (pvs : List PatientVariant) (tg sv : List String) (intent : IntentDetails) : String :=
  let allDetails := mainDetails pred pvs tg sv intent
  let summaries := mainSummaries pred pvs tg sv intent
  let fin := mainFin pred pvs tg sv intent
  let evLines : List String :=
    ["Genomic Analysis Report for query: \x27" ++ genomic_query ++ "\x27",
     "Patient ID: " ++ patient_id,
     "Determined Intent: " ++ reprIntentDetails intent,
     "Target Genes: " ++ reprStrList tg ++ ", Specific Variants in Query: " ++ reprStrList sv,
     "--- Simulated VEP Details ---"]
    ++ (if allDetails = [] then
          ["No specific variant effect predictions were generated (e.g., patient WT for gene, or error)."]
        else [])
    ++ allDetails.flatMap detailEvidenceLines
    ++ ["--- Gene Summaries ---"]
    ++ (if summaries = [] then ["No gene-specific summaries were generated."] else [])
    ++ summaries.map
         (fun p => "Gene: " ++ p.1 ++ ", Status for criterion: " ++ p.2.status
           ++ ", Details: " ++ p.2.details)
    ++ ["--- Overall Query Status: " ++ fin.1 ++ " ---"]
    ++ (if fin.2 ≠ [] then "--- Errors/Warnings ---" :: fin.2 else [])
  String.intercalate "\\n" evLines

/-- The main branch of `run` (loop, overall status, downgrade, evidence,
result assembly), decomposed into the components above. -/
def runListMain (pred : Predictor) (genomic_query patient_id : String)
    (pvs : List PatientVariant) (criterion_id : String) (tg sv : List String)
    (intent : IntentDetails) : GenomicAnalysisResult :=
  { criterion_id := criterion_id, criterion_query := genomic_query,
    status := (mainFin pred pvs tg sv intent).1,
    evidence := mainEvidence pred genomic_query patient_id pvs tg sv intent,
    gene_summary_statuses := mainSummaries pred pvs tg sv intent,
    simulated_vep_details := mainDetails pred pvs tg sv intent,
    clinical_significance_context :=
      some (generateClinicalSignificanceContext tg (mainFin pred pvs tg sv intent).1),
    errors := (mainFin pred pvs tg sv intent).2 }

/-- The body of `GenomicAnalystAgent.run` after the `isinstance` check. -/
def runList (pred : Predictor) (genomic_query patient_id : String)
    (pvs : List PatientVariant) (criterion_id : String) : GenomicAnalysisResult :=
  let tg := extractGenes genomic_query
  let sv := extractSpecificVariants genomic_query
  let intent := determineCriterionIntent genomic_query
  if tg = [] ∧ sv = [] then
    { criterion_id := criterion_id, criterion_query := genomic_query, status := "UNCLEAR",
      evidence := "No specific target gene identified in the query for analysis.",
      gene_summary_statuses := [], simulated_vep_details := [],
      clinical_significance_context := none,
      errors := ["No target gene identified in query."] }
  else runListMain pred genomic_query patient_id pvs criterion_id tg sv intent

/-- The `patient_mutations` argument of `run`: either an actual list of
records, or a value of some other Python type (for example a string), which
fails the `isinstance(patient_mutations, list)` check. -/
inductive PatientMutationsInput where
  | ofList (l : List PatientVariant)
  | notAList (description : String)
deriving Repr, DecidableEq

/-- `GenomicAnalystAgent.run`. -/
def run (pred : Predictor) (genomic_query patient_id : String)
    (patient_mutations : PatientMutationsInput) (criterion_id : String) :
    GenomicAnalysisResult :=
  match patient_mutations with
  | .notAList _ =>
      { criterion_id := criterion_id, criterion_query := genomic_query, status := "ERROR",
        evidence := "Internal error: Invalid format for patient genomic data.",
        gene_summary_statuses := [], simulated_vep_details := [],
        clinical_significance_context := none,
        errors := ["Invalid patient_mutations format."] }
  | .ofList l => runList pred genomic_query patient_id l criterion_id

/-- Association-list lookup on `gene_summary_statuses`. -/
def lookupGS (m : List (String × GeneSummaryStatus)) (g : String) : Option GeneSummaryStatus :=
  (m.find? (fun p => p.1 == g)).map (·.2)

/-- Two records conflict when they concern the same gene and the same
non-empty normalized protein change but carry different `variant_type`
values (scenario 1 of the classifier resolves the `variant_type` through
the *first* matching record, which is the one order-sensitive lookup of the
pipeline). -/
def pcConflict (r r' : PatientVariant) : Bool :=
  (strUpper r.hugo_gene_symbol == strUpper r'.hugo_gene_symbol) &&
  (match r.protein_change, r'.protein_change with
   | some s, some s' =>
       s != "" && s' != "" && (normalizeVariantName s == normalizeVariantName s')
         && !(r.variant_type == r'.variant_type)
   | _, _ => false)

def noConflictingDuplicates (l : List PatientVariant) : Bool :=
  l.all (fun r => l.all (fun r' => !(pcConflict r r')))

/-! ## Concrete scenario inputs (from the specification's literal
scenarios and the intent-priority analysis) -/

def activatingBrafQuery : String := "Patient must have activating BRAF V600E mutation."

def brafV600EVariant : PatientVariant := ⟨"BRAF", some "p.V600E", some "Missense_Mutation"⟩

def tp53R248StopVariant : PatientVariant := ⟨"TP53", some "p.R248*", some "Nonsense_Mutation"⟩

def activatingBrafVariants : List PatientVariant := [brafV600EVariant, tp53R248StopVariant]

def egfrWildTypeQuery : String := "Patient must be EGFR wild-type."

def egfrWildTypeVariants : List PatientVariant := [brafV600EVariant]

def k601nNonsense : PatientVariant := ⟨"BRAF", some "K601N", some "Nonsense_Mutation"⟩

def k601nMissense : PatientVariant := ⟨"BRAF", some "K601N", some "Missense_Mutation"⟩

def orderSensitiveQuery : String := "pathogenic BRAF K601N mutation"

/-! ## General lemmas -/

theorem mem_insertSortedStr {s t : String} {l : List String} :
    t ∈ insertSortedStr s l ↔ t = s ∨ t ∈ l := by
  induction l with
  | nil => simp [insertSortedStr]
  | cons a l ih =>
      simp only [insertSortedStr]
      split
      · simp
      · simp only [List.mem_cons, ih]
        tauto

theorem mem_sortStrings {t : String} {l : List String} : t ∈ sortStrings l ↔ t ∈ l := by
  induction l with
  | nil => simp [sortStrings]
  | cons a l ih => simp [sortStrings, mem_insertSortedStr, ih]

theorem mem_insertByLenDesc {s t : String} {l : List String} :
    t ∈ insertByLenDesc s l ↔ t = s ∨ t ∈ l := by
  induction l with
  | nil => simp [insertByLenDesc]
  | cons a l ih =>
      simp only [insertByLenDesc]
      split
      · simp
      · simp only [List.mem_cons, ih]
        tauto

theorem mem_sortByLenDesc {t : String} {l : List String} : t ∈ sortByLenDesc l ↔ t ∈ l := by
  induction l with
  | nil => simp [sortByLenDesc]
  | cons a l ih => simp [sortByLenDesc, mem_insertByLenDesc, ih]

/-- Every extracted gene is a known gene symbol (via the `HER2 → ERBB2`
canonicalisation, which also lands in the known list). -/
theorem extractGenes_mem_known {q g : String} (h : g ∈ extractGenes q) :
    g ∈ knownGenes ∨ g = "ERBB2" := by
  unfold extractGenes at h
  rw [mem_sortStrings, List.mem_dedup] at h
  obtain ⟨g', hg', rfl⟩ := List.mem_map.mp h
  have hg'' := (List.mem_filter.mp hg').1
  rw [mem_sortByLenDesc] at hg''
  by_cases hh : g' = "HER2"
  · rw [if_pos hh]
    exact Or.inr rfl
  · rw [if_neg hh]
    exact Or.inl hg''

theorem extractGenes_ne_unknown {q g : String} (h : g ∈ extractGenes q) :
    g ≠ "UNKNOWN_GENE_CONTEXT" := by
  rcases extractGenes_mem_known h with hk | he
  · intro heq
    rw [heq] at hk
    revert hk
    decide
  · rw [he]
    decide

theorem perm_any {α : Type} {l l' : List α} (h : l.Perm l') (p : α → Bool) :
    l.any p = l'.any p := by
  cases hb : l'.any p with
  | true =>
      rw [List.any_eq_true] at hb ⊢
      obtain ⟨x, hx, hpx⟩ := hb
      exact ⟨x, h.mem_iff.mpr hx, hpx⟩
  | false =>
      rw [List.any_eq_false] at hb ⊢
      intro x hx
      exact hb x (h.mem_iff.mp hx)

theorem perm_ne_nil {α : Type} {l l' : List α} (h : l.Perm l') (hne : l ≠ []) : l' ≠ [] := by
  intro hl'
  subst hl'
  exact hne h.eq_nil

theorem flatMap_congr_of_mem {α β : Type} {l : List α} {f f' : α → List β}
    (h : ∀ a ∈ l, f a = f' a) : l.flatMap f = l.flatMap f' := by
  induction l with
  | nil => rfl
  | cons a l ih =>
      simp only [List.flatMap_cons]
      rw [h a (List.mem_cons_self a l), ih (fun b hb => h b (List.mem_cons_of_mem a hb))]

theorem flatMap_perm_of_mem {α β : Type} {l : List α} {f f' : α → List β}
    (h : ∀ a ∈ l, (f a).Perm (f' a)) : (l.flatMap f).Perm (l.flatMap f') := by
  induction l with
  | nil => exact List.Perm.refl _
  | cons a l ih =>
      simp only [List.flatMap_cons]
      exact (h a (List.mem_cons_self a l)).append (ih (fun b hb => h b (List.mem_cons_of_mem a hb)))

theorem map_congr_of_mem {α β : Type} {l : List α} {f f' : α → β}
    (h : ∀ a ∈ l, f a = f' a) : l.map f = l.map f' := by
  induction l with
  | nil => rfl
  | cons a l ih =>
      simp only [List.map_cons]
      rw [h a (List.mem_cons_self a l), ih (fun b hb => h b (List.mem_cons_of_mem a hb))]

theorem flatMap_map_fn {α β γ : Type} (l : List α) (F : α → β) (proj : β → List γ) :
    (l.map F).flatMap proj = l.flatMap (fun a => proj (F a)) := by
  induction l with
  | nil => rfl
  | cons a l ih => simp only [List.map_cons, List.flatMap_cons, ih]

theorem flatMap_singleton_fn {α β : Type} (l : List α) (f : α → β) :
    l.flatMap (fun a => [f a]) = l.map f := by
  induction l with
  | nil => rfl
  | cons a l ih => simp only [List.flatMap_cons, List.map_cons, List.singleton_append, ih]

theorem any_map_fn {α β : Type} (l : List α) (F : α → β) (p : β → Bool) :
    (l.map F).any p = l.any (fun a => p (F a)) := by
  induction l with
  | nil => rfl
  | cons a l ih => simp only [List.map_cons, List.any_cons, ih]

theorem any_congr_of_mem {α : Type} {l : List α} {p p' : α → Bool}
    (h : ∀ a ∈ l, p a = p' a) : l.any p = l.any p' := by
  induction l with
  | nil => rfl
  | cons a l ih =>
      simp only [List.any_cons]
      rw [h a (List.mem_cons_self a l), ih (fun b hb => h b (List.mem_cons_of_mem a hb))]

theorem filterMap_map_length {α β γ : Type} (l : List α) (u : α → Option γ)
    (f1 f2 : α → γ → β) :
    (l.filterMap (fun a => (u a).map (f1 a))).length
      = (l.filterMap (fun a => (u a).map (f2 a))).length := by
  induction l with
  | nil => rfl
  | cons a l ih =>
      cases hu : u a with
      | none => simp [List.filterMap_cons, hu, ih]
      | some c => simp [List.filterMap_cons, hu, ih]

theorem find_bind_eq_of_perm {α β : Type} {l l' : List α} (h : l.Perm l')
    (p : α → Bool) (f : α → Option β)
    (agree : ∀ a ∈ l, ∀ b ∈ l, p a = true → p b = true → f a = f b) :
    (l.find? p).bind f = (l'.find? p).bind f := by
  cases h1 : l.find? p with
  | none =>
      have h2 : l'.find? p = none := by
        rw [List.find?_eq_none] at h1 ⊢
        intro x hx
        exact h1 x (h.mem_iff.mpr hx)
      rw [h2]
  | some a =>
      have ha : p a := List.find?_some h1
      have hamem : a ∈ l := List.mem_of_find?_eq_some h1
      cases h2 : l'.find? p with
      | none =>
          rw [List.find?_eq_none] at h2
          exact absurd ha (h2 a (h.mem_iff.mp hamem))
      | some b =>
          have hb : p b := List.find?_some h2
          have hbmem : b ∈ l := h.mem_iff.mpr (List.mem_of_find?_eq_some h2)
          simp only [Option.some_bind]
          exact agree a hamem b hbmem ha hb

/-! ## Lemmas about the pipeline components -/

theorem finalizeStatus_nil_errs (o : String) : finalizeStatus o [] = (o, []) := by
  simp [finalizeStatus]

theorem finalizeStatus_snd_nil {o : String} {e : List String}
    (h : (finalizeStatus o e).2 = []) : e = [] := by
  unfold finalizeStatus at h
  split at h
  · split at h
    · simp at h
    · exact h
  · exact h

theorem finalizeStatus_met_errs {o : String} {e : List String}
    (h : (finalizeStatus o e).1 = "MET" ∨ (finalizeStatus o e).1 = "NOT_MET") :
    (finalizeStatus o e).2 = [] := by
  by_cases he : e = []
  · subst he
    simp [finalizeStatus]
  · exfalso
    unfold finalizeStatus at h
    by_cases hc : e ≠ [] ∧ o ≠ "ERROR"
    · rw [if_pos hc] at h
      by_cases hmn : o = "MET" ∨ o = "NOT_MET"
      · rw [if_pos hmn] at h
        simp at h
      · rw [if_neg hmn] at h
        simp only [Prod.fst] at h
        exact hmn h
    · rw [if_neg hc] at h
      have ho : o = "ERROR" := by tauto
      subst ho
      simp at h

theorem finalizeStatus_fst_of_perm {o : String} {e e' : List String}
    (h : e.Perm e') : (finalizeStatus o e).1 = (finalizeStatus o e').1 := by
  unfold finalizeStatus
  by_cases he : e = []
  · have he' : e' = [] := by
      subst he
      exact h.symm.eq_nil
    subst he
    rw [he']
  · have he' : e' ≠ [] := perm_ne_nil h he
    by_cases ho : o = "ERROR"
    · have h1 : ¬(e ≠ [] ∧ o ≠ "ERROR") := fun hc => hc.2 ho
      have h2 : ¬(e' ≠ [] ∧ o ≠ "ERROR") := fun hc => hc.2 ho
      rw [if_neg h1, if_neg h2]
    · have h1 : e ≠ [] ∧ o ≠ "ERROR" := ⟨he, ho⟩
      have h2 : e' ≠ [] ∧ o ≠ "ERROR" := ⟨he', ho⟩
      rw [if_pos h1, if_pos h2]
      by_cases hmn : o = "MET" ∨ o = "NOT_MET"
      · rw [if_pos hmn, if_pos hmn]
      · rw [if_neg hmn, if_neg hmn]

theorem overallFromStatusValues_spec (svals : List String) (hne : svals ≠ []) :
    (overallFromStatusValues svals = "MET" ↔ ∀ s ∈ svals, s = "MET")
    ∧ ((∃ s ∈ svals, s = "NOT_MET") → overallFromStatusValues svals = "NOT_MET")
    ∧ ((¬ ∀ s ∈ svals, s = "MET") → (¬ ∃ s ∈ svals, s = "NOT_MET") →
        overallFromStatusValues svals = "UNCLEAR") := by
  unfold overallFromStatusValues
  rw [if_neg hne]
  by_cases hall : svals.all (fun s => s == "MET") = true
  · have hall' : ∀ s ∈ svals, s = "MET" := by
      intro s hs
      have := List.all_eq_true.mp hall s hs
      simpa using this
    rw [if_pos hall]
    refine ⟨⟨fun _ => hall', fun _ => rfl⟩, ?_, ?_⟩
    · rintro ⟨s, hs, hns⟩
      exact absurd ((hall' s hs).symm.trans hns) (by decide)
    · intro hnall _
      exact absurd hall' hnall
  · rw [if_neg hall]
    have hnall : ¬ ∀ s ∈ svals, s = "MET" := by
      intro hforall
      exact hall (List.all_eq_true.mpr (fun s hs => by simp [hforall s hs]))
    by_cases hany : svals.any (fun s => s == "NOT_MET") = true
    · rw [if_pos hany]
      refine ⟨⟨fun h => absurd h (by decide), fun hforall => absurd hforall hnall⟩,
        fun _ => rfl, ?_⟩
      intro _ hnex
      have hex : ∃ s ∈ svals, s = "NOT_MET" := by
        obtain ⟨s, hs, hps⟩ := List.any_eq_true.mp hany
        exact ⟨s, hs, by simpa using hps⟩
      exact absurd hex hnex
    · rw [if_neg hany]
      refine ⟨⟨fun h => absurd h (by decide), fun hforall => absurd hforall hnall⟩, ?_,
        fun _ _ => rfl⟩
      rintro ⟨s, hs, hps⟩
      exact absurd (List.any_eq_true.mpr ⟨s, hs, by simp [hps]⟩) hany

theorem geneStep_of_ne_unknown (pred : Predictor) (sv : List String)
    (intent : IntentDetails) (pvs : List PatientVariant) {g : String}
    (h : g ≠ "UNKNOWN_GENE_CONTEXT") :
    geneStep pred sv intent pvs g =
      ⟨(classifyVariantSimulated pred g
          (pvs.filter (fun m => strUpper m.hugo_gene_symbol == strUpper g)) sv intent).1,
        (classifyVariantSimulated pred g
          (pvs.filter (fun m => strUpper m.hugo_gene_symbol == strUpper g)) sv intent).2.1,
        [(g, getGeneSummaryStatus g
            (classifyVariantSimulated pred g
              (pvs.filter (fun m => strUpper m.hugo_gene_symbol == strUpper g)) sv intent).1
            intent)], true⟩ := by
  simp only [geneStep]
  rw [if_neg (fun hc => h hc.1)]
  rw [if_pos h, if_pos h]

theorem mainSummaries_eq (pred : Predictor) (pvs : List PatientVariant)
    {tg : List String} (sv : List String) (intent : IntentDetails)
    (hne : tg ≠ []) (hnu : ∀ g ∈ tg, g ≠ "UNKNOWN_GENE_CONTEXT") :
    mainSummaries pred pvs tg sv intent
      = tg.map (fun g => (g,
          getGeneSummaryStatus g
            (classifyVariantSimulated pred g
              (pvs.filter (fun m => strUpper m.hugo_gene_symbol == strUpper g)) sv intent).1
            intent)) := by
  unfold mainSummaries mainSteps loopGenesOf
  rw [if_neg hne, flatMap_map_fn]
  refine (flatMap_congr_of_mem ?_).trans (flatMap_singleton_fn _ _)
  intro g hg
  rw [geneStep_of_ne_unknown pred sv intent pvs (hnu g hg)]

theorem mainSteps_processed (pred : Predictor) (pvs : List PatientVariant)
    {tg : List String} (sv : List String) (intent : IntentDetails)
    (hne : tg ≠ []) (hnu : ∀ g ∈ tg, g ≠ "UNKNOWN_GENE_CONTEXT") :
    (mainSteps pred pvs tg sv intent).any (·.processed) = true := by
  unfold mainSteps loopGenesOf
  rw [if_neg hne, any_map_fn]
  cases tg with
  | nil => exact absurd rfl hne
  | cons a l =>
      rw [List.any_cons]
      rw [geneStep_of_ne_unknown pred sv intent pvs (hnu a (List.mem_cons_self a l))]
      rfl

theorem filterMap_congr_of_mem {α β : Type} {l : List α} {f f' : α → Option β}
    (h : ∀ a ∈ l, f a = f' a) : l.filterMap f = l.filterMap f' := by
  induction l with
  | nil => rfl
  | cons a l ih =>
      simp only [List.filterMap_cons]
      rw [h a (List.mem_cons_self a l), ih (fun b hb => h b (List.mem_cons_of_mem a hb))]

theorem matchesQueryVariant_spec {qv : String} {pv : PatientVariant}
    (h : matchesQueryVariant qv pv = true) :
    ∃ s, pv.protein_change = some s ∧ s ≠ "" ∧ normalizeVariantName s = qv := by
  unfold matchesQueryVariant at h
  cases hpc : pv.protein_change with
  | none =>
      rw [hpc] at h
      cases h
  | some s =>
      rw [hpc] at h
      rw [Bool.and_eq_true] at h
      exact ⟨s, rfl, bne_iff_ne.mp h.1, by simpa using h.2⟩

theorem noConflict_spec {l : List PatientVariant}
    (hnc : noConflictingDuplicates l = true) :
    ∀ a ∈ l, ∀ b ∈ l,
      strUpper a.hugo_gene_symbol = strUpper b.hugo_gene_symbol →
      ∀ s s', a.protein_change = some s → b.protein_change = some s' →
      s ≠ "" → s' ≠ "" → normalizeVariantName s = normalizeVariantName s' →
      a.variant_type = b.variant_type := by
  intro a ha b hb hg s s' hs hs' hne hne' hnorm
  unfold noConflictingDuplicates at hnc
  have h1 := List.all_eq_true.mp hnc a ha
  have h2 := List.all_eq_true.mp h1 b hb
  rw [Bool.not_eq_true'] at h2
  unfold pcConflict at h2
  rw [hs, hs'] at h2
  dsimp only at h2
  have hb1 : (s != "") = true := bne_iff_ne.mpr hne
  have hb2 : (s' != "") = true := bne_iff_ne.mpr hne'
  rw [hg, hnorm] at h2
  simp only [beq_self_eq_true, hb1, hb2, Bool.true_and, Bool.and_true] at h2
  simpa using h2

theorem highestClassificationFound_perm {ds ds' : List SimulatedVEPDetail}
    (h : ds.Perm ds') :
    highestClassificationFound ds = highestClassificationFound ds' := by
  unfold highestClassificationFound
  have he : ds.isEmpty = ds'.isEmpty := by
    have hl := h.length_eq
    cases ds <;> cases ds' <;> simp_all
  rw [he]
  have hpred : (fun lvl => ds.any (fun d => strStartsWith (strUpper d.simulated_classification) lvl))
      = (fun lvl => ds'.any (fun d => strStartsWith (strUpper d.simulated_classification) lvl)) :=
    funext (fun lvl => perm_any h _)
  rw [hpred]

theorem getGeneSummaryStatus_perm (g : String) (intent : IntentDetails)
    {ds ds' : List SimulatedVEPDetail} (h : ds.Perm ds') :
    getGeneSummaryStatus g ds intent = getGeneSummaryStatus g ds' intent := by
  unfold getGeneSummaryStatus
  rw [highestClassificationFound_perm h]

theorem classify_perm (pred : Predictor) (g : String) (sv : List String)
    (intent : IntentDetails) {gl gl' : List PatientVariant} (hp : gl.Perm gl')
    (agree : ∀ a ∈ gl, ∀ b ∈ gl, ∀ qv : String,
      matchesQueryVariant qv a = true → matchesQueryVariant qv b = true →
      a.variant_type = b.variant_type) :
    (classifyVariantSimulated pred g gl sv intent).1.Perm
        (classifyVariantSimulated pred g gl' sv intent).1
      ∧ (classifyVariantSimulated pred g gl sv intent).2.1.Perm
        (classifyVariantSimulated pred g gl' sv intent).2.1 := by
  have hvt : ∀ qv, scenario1VariantType gl qv = scenario1VariantType gl' qv := by
    intro qv
    unfold scenario1VariantType
    exact find_bind_eq_of_perm hp _ _ (fun a ha b hb hpa hpb => agree a ha b hb qv hpa hpb)
  simp only [classifyVariantSimulated]
  by_cases hsv : sv ≠ []
  · rw [if_pos hsv, if_pos hsv]
    dsimp only
    constructor
    · have hmc : (pySet (sv.map normalizeVariantName)).map
            (scenario1Detail pred g (queryIntentForMockApi intent) gl)
          = (pySet (sv.map normalizeVariantName)).map
            (scenario1Detail pred g (queryIntentForMockApi intent) gl') :=
        map_congr_of_mem (fun qv _ => by unfold scenario1Detail; rw [hvt qv])
      rw [hmc]
    · have hfc : (pySet (sv.map normalizeVariantName)).filterMap
            (scenario1Err pred g (queryIntentForMockApi intent) gl)
          = (pySet (sv.map normalizeVariantName)).filterMap
            (scenario1Err pred g (queryIntentForMockApi intent) gl') :=
        filterMap_congr_of_mem (fun qv _ => by unfold scenario1Err; rw [hvt qv])
      rw [hfc]
  · rw [if_neg hsv, if_neg hsv]
    by_cases hgl : gl ≠ []
    · have hgl' : gl' ≠ [] := perm_ne_nil hp hgl
      rw [if_pos hgl, if_pos hgl']
      dsimp only
      exact ⟨hp.filterMap _, hp.filterMap _⟩
    · have hglnil : gl = [] := not_ne_iff.mp hgl
      have hgl'nil : gl' = [] := by
        subst hglnil
        exact hp.symm.eq_nil
      subst hglnil
      rw [hgl'nil]
      exact ⟨List.Perm.refl _, List.Perm.refl _⟩

theorem geneStep_perm (pred : Predictor) (sv : List String) (intent : IntentDetails)
    (g : String) {l l' : List PatientVariant} (hp : l.Perm l')
    (hnc : noConflictingDuplicates l = true) :
    (geneStep pred sv intent l g).summaries = (geneStep pred sv intent l' g).summaries
    ∧ (geneStep pred sv intent l g).errs.Perm (geneStep pred sv intent l' g).errs
    ∧ (geneStep pred sv intent l g).processed = (geneStep pred sv intent l' g).processed := by
  by_cases hu : g = "UNKNOWN_GENE_CONTEXT" ∧ sv = []
  · simp only [geneStep, if_pos hu]
    exact ⟨trivial, List.Perm.refl _, trivial⟩
  · simp only [geneStep]
    rw [if_neg hu, if_neg hu]
    dsimp only
    have hfp : (l.filter (fun m => strUpper m.hugo_gene_symbol == strUpper g)).Perm
        (l'.filter (fun m => strUpper m.hugo_gene_symbol == strUpper g)) := hp.filter _
    have agree : ∀ a ∈ l.filter (fun m => strUpper m.hugo_gene_symbol == strUpper g),
        ∀ b ∈ l.filter (fun m => strUpper m.hugo_gene_symbol == strUpper g), ∀ qv : String,
        matchesQueryVariant qv a = true → matchesQueryVariant qv b = true →
        a.variant_type = b.variant_type := by
      intro a ha b hb qv hqa hqb
      obtain ⟨hal, hap⟩ := List.mem_filter.mp ha
      obtain ⟨hbl, hbp⟩ := List.mem_filter.mp hb
      obtain ⟨s, hsa, hsne, hsn⟩ := matchesQueryVariant_spec hqa
      obtain ⟨s', hsb, hsne', hsn'⟩ := matchesQueryVariant_spec hqb
      refine noConflict_spec hnc a hal b hbl ?_ s s' hsa hsb hsne hsne'
        (hsn.trans hsn'.symm)
      have h1 : strUpper a.hugo_gene_symbol = strUpper g := by simpa using hap
      have h2 : strUpper b.hugo_gene_symbol = strUpper g := by simpa using hbp
      rw [h1, h2]
    generalize (if g ≠ "UNKNOWN_GENE_CONTEXT" then sv else []) = svE
    have hc := classify_perm pred g svE intent hfp agree
    refine ⟨?_, hc.2, rfl⟩
    by_cases hgu : g ≠ "UNKNOWN_GENE_CONTEXT"
    · rw [if_pos hgu, if_pos hgu]
      rw [getGeneSummaryStatus_perm g intent hc.1]
    · rw [if_neg hgu, if_neg hgu]

theorem runListMain_perm (pred : Predictor) (q pid cid : String)
    (tg sv : List String) (intent : IntentDetails)
    {l l' : List PatientVariant} (hp : l.Perm l')
    (hnc : noConflictingDuplicates l = true) :
    (runListMain pred q pid l cid tg sv intent).gene_summary_statuses
        = (runListMain pred q pid l' cid tg sv intent).gene_summary_statuses
    ∧ (runListMain pred q pid l cid tg sv intent).status
        = (runListMain pred q pid l' cid tg sv intent).status := by
  have hstep := fun g => geneStep_perm pred sv intent g hp hnc
  have hsum : mainSummaries pred l tg sv intent = mainSummaries pred l' tg sv intent := by
    unfold mainSummaries mainSteps
    rw [flatMap_map_fn, flatMap_map_fn]
    exact flatMap_congr_of_mem (fun g _ => (hstep g).1)
  have herr : ((mainSteps pred l tg sv intent).flatMap (·.errs)).Perm
      ((mainSteps pred l' tg sv intent).flatMap (·.errs)) := by
    unfold mainSteps
    rw [flatMap_map_fn, flatMap_map_fn]
    exact flatMap_perm_of_mem (fun g _ => (hstep g).2.1)
  have hproc : (mainSteps pred l tg sv intent).any (·.processed)
      = (mainSteps pred l' tg sv intent).any (·.processed) := by
    unfold mainSteps
    rw [any_map_fn, any_map_fn]
    exact any_congr_of_mem (fun g _ => (hstep g).2.2)
  have hover : mainOverallPair pred l tg sv intent = mainOverallPair pred l' tg sv intent := by
    unfold mainOverallPair
    rw [hsum, hproc]
  have herrB : (mainErrsBefore pred l tg sv intent).Perm (mainErrsBefore pred l' tg sv intent) := by
    unfold mainErrsBefore
    rw [hover]
    exact ((List.Perm.refl (mainInitErrs tg sv)).append herr).append (List.Perm.refl _)
  have hfin : (mainFin pred l tg sv intent).1 = (mainFin pred l' tg sv intent).1 := by
    unfold mainFin
    rw [hover]
    exact finalizeStatus_fst_of_perm herrB
  exact ⟨hsum, hfin⟩

theorem negationScan_status (ql : List Char) :
    (negationScan ql).status_keyword = "ANY_MUTATION" := by
  simp only [negationScan]
  split
  · rfl
  · split
    · rfl
    · split <;> rfl

theorem negationScan_primary (ql : List Char) :
    (negationScan ql).primary_intent =
      if patSearch ql effectOfPat then "GET_EFFECT"
      else if (absenceRealPats.any (patSearch ql)
              || !(listContainsSub (firstLine ql) ("presence of".data)))
            && !(presencePats.any (patSearch ql)) then "CHECK_ABSENCE"
      else "CHECK_PRESENCE" := by
  simp only [negationScan]
  split
  · rfl
  · split
    · rfl
    · split <;> rfl

theorem negationScan_negated (ql : List Char) :
    (negationScan ql).is_negated =
      ((!(patSearch ql effectOfPat))
        && ((absenceRealPats.any (patSearch ql)
              || !(listContainsSub (firstLine ql) ("presence of".data)))
            && !(presencePats.any (patSearch ql)))) := by
  simp only [negationScan]
  by_cases h1 : patSearch ql effectOfPat = true
  · rw [if_pos h1, h1]
    simp
  · rw [if_neg h1]
    rw [Bool.not_eq_true] at h1
    rw [h1]
    by_cases h2 : ((absenceRealPats.any (patSearch ql)
        || !(listContainsSub (firstLine ql) ("presence of".data)))
        && !(presencePats.any (patSearch ql))) = true
    · rw [if_pos h2, h2]
      simp
    · rw [if_neg h2]
      rw [Bool.not_eq_true] at h2
      rw [h2]
      split <;> simp

theorem statusScanStep_status (ql : List Char) (cur : IntentDetails) :
    (statusScanStep ql cur).status_keyword =
      match statusPriorityList.find? (fun kv => patSearch ql kv.2) with
      | some kv => kv.1
      | none => cur.status_keyword := by
  unfold statusScanStep
  cases hf : statusPriorityList.find? (fun kv => patSearch ql kv.2) with
  | none => rfl
  | some kv =>
      dsimp only
      split <;> rfl

/-- When the HER2-negative literal override does not fire, the determined
status keyword is exactly the first entry of the ordered priority list
whose pattern matches (defaulting to `ANY_MUTATION`). -/
theorem determineCriterionIntent_status_eq (q : String)
    (hher2 : listContainsSub ((lowerChars q.data).filter (fun c => c ≠ ' '))
      ("her2-negative".data) = false) :
    (determineCriterionIntent q).status_keyword
      = ((statusPriorityList.find? (fun kv => patSearch (lowerChars q.data) kv.2)).map
          Prod.fst).getD "ANY_MUTATION" := by
  have hmain : (statusScanStep (lowerChars q.data) (negationScan (lowerChars q.data))).status_keyword
      = ((statusPriorityList.find? (fun kv => patSearch (lowerChars q.data) kv.2)).map
          Prod.fst).getD "ANY_MUTATION" := by
    rw [statusScanStep_status]
    cases hf : statusPriorityList.find? (fun kv => patSearch (lowerChars q.data) kv.2) with
    | none => simp [negationScan_status]
    | some kv => simp
  unfold determineCriterionIntent
  simp only [hher2, Bool.false_eq_true, if_false]
  split
  · exact hmain
  · exact hmain

/-! ## Claim theorems -/

/-- C2: for every call to `run` whose `patient_mutations` argument is not a
list, the call returns a `GenomicAnalysisResult` with status `"ERROR"` and a
non-empty `errors` list, never raises (the embedding is a total function),
and never proceeds to gene extraction or variant classification: for every
predictor the result is the same fixed record, with no gene summaries and
no variant details. -/
theorem claim2_nonlist_input_is_error_result (pred : Predictor) (q pid s cid : String) :
    run pred q pid (.notAList s) cid =
      { criterion_id := cid, criterion_query := q, status := "ERROR",
        evidence := "Internal error: Invalid format for patient genomic data.",
        gene_summary_statuses := [], simulated_vep_details := [],
        clinical_significance_context := none,
        errors := ["Invalid patient_mutations format."] }
    ∧ (run pred q pid (.notAList s) cid).errors ≠ [] :=
  ⟨rfl, List.cons_ne_nil _ _⟩

/-- C7 (code bug record): the aggregation of an empty detail list does give
the `WILD_TYPE_CONFIRMED` term (first half of the claim), but on the
spec's literal scenario — criterion "Patient must be EGFR wild-type." with
only a BRAF p.V600E record — the code returns overall `NOT_MET` with
`gene_summary_statuses["EGFR"].status = "NOT_MET"`, not `MET` /
`WILD_TYPE_CONFIRMED` as the claim states: the catch-all absence regex
`^(?!.*presence of.*)` marks the criterion as negated, so the wild-type
requirement is evaluated as `CHECK_ABSENCE` of wild-type. -/
theorem claim7_wild_type_scenario_behavior :
    geneActualStatusTerm (highestClassificationFound []) = "WILD_TYPE_CONFIRMED"
    ∧ (run realMock egfrWildTypeQuery "PAT123" (.ofList egfrWildTypeVariants)
        "custom_query").status = "NOT_MET"
    ∧ ((lookupGS (run realMock egfrWildTypeQuery "PAT123" (.ofList egfrWildTypeVariants)
        "custom_query").gene_summary_statuses "EGFR").map (·.status)) = some "NOT_MET" :=
  ⟨rfl, rfl, rfl⟩

/-- C8 counterexample: on the claim's input the per-gene summary status for
BRAF is the criterion verdict `"MET"`, not the label `"ACTIVATING_FOUND"`
the claim asserts. -/
theorem claim8_counterexample :
    ((lookupGS (run realMock activatingBrafQuery "PAT123" (.ofList activatingBrafVariants)
        "custom_query").gene_summary_statuses "BRAF").map (·.status)) = some "MET"
    ∧ ((lookupGS (run realMock activatingBrafQuery "PAT123" (.ofList activatingBrafVariants)
        "custom_query").gene_summary_statuses "BRAF").map (·.status)) ≠ some "ACTIVATING_FOUND" :=
  ⟨rfl, by decide⟩

/-- C8 as amended: for the criterion "Patient must have activating BRAF
V600E mutation." and the claim's two patient variants, `run` returns
overall status `MET`, and the BRAF entry of `gene_summary_statuses` holds
the per-gene criterion verdict `"MET"` (the code reports MET/NOT_MET per
gene in the check modes, never a classification-family label such as
`ACTIVATING_FOUND`). -/
theorem claim8_activating_braf_scenario :
    (run realMock activatingBrafQuery "PAT123" (.ofList activatingBrafVariants)
        "custom_query").status = "MET"
    ∧ ((lookupGS (run realMock activatingBrafQuery "PAT123" (.ofList activatingBrafVariants)
        "custom_query").gene_summary_statuses "BRAF").map (·.status)) = some "MET" :=
  ⟨rfl, rfl⟩

/-- C9 (code bug record): the token HER2 is not recognised by the gene
extractor — `"HER2"` is missing from `known_genes`, so the `HER2 → ERBB2`
canonicalisation branch is dead code and a criterion containing HER2 yields
no gene at all (the claim requires ERBB2 in the result); the boundary-guarded
matching itself does recognise the canonical symbol ERBB2. -/
theorem claim9_her2_alias_is_dead :
    extractGenes "Patient must be HER2-positive" = []
    ∧ extractGenes "ERBB2 status" = ["ERBB2"]
    ∧ "HER2" ∉ knownGenes :=
  ⟨rfl, rfl, by decide⟩

/-- C4 counterexample: the text "activating resistance mutation" contains a
resistance keyword, yet the determined status keyword is `ACTIVATING`, not
`RESISTANCE` as the claim's priority order demands. -/
theorem claim4_counterexample :
    patSearch (lowerChars ("activating resistance mutation").data) resistancePat = true
    ∧ (determineCriterionIntent "activating resistance mutation").status_keyword = "ACTIVATING"
    ∧ "ACTIVATING" ≠ "RESISTANCE" :=
  ⟨by decide, by decide, by decide⟩

/-- C4 as amended: the status-keyword scan uses the fixed priority order
ACTIVATING > PATHOGENIC/LOF > RESISTANCE > WILD_TYPE > ANY_MUTATION (the
insertion order of `status_priority_map`), the first match wins and
short-circuits the lower-priority scans; texts triggering the HER2-negative
literal override are excluded (that later special case forces WILD_TYPE). -/
theorem claim4_status_scan_priority (q : String)
    (hher2 : listContainsSub ((lowerChars q.data).filter (fun c => c ≠ ' '))
      ("her2-negative".data) = false) :
    (patSearch (lowerChars q.data) activatingPat = true →
      (determineCriterionIntent q).status_keyword = "ACTIVATING")
    ∧ (patSearch (lowerChars q.data) activatingPat = false →
       patSearch (lowerChars q.data) pathogenicPat = true →
      (determineCriterionIntent q).status_keyword = "PATHOGENIC/LOF")
    ∧ (patSearch (lowerChars q.data) activatingPat = false →
       patSearch (lowerChars q.data) pathogenicPat = false →
       patSearch (lowerChars q.data) resistancePat = true →
      (determineCriterionIntent q).status_keyword = "RESISTANCE")
    ∧ (patSearch (lowerChars q.data) activatingPat = false →
       patSearch (lowerChars q.data) pathogenicPat = false →
       patSearch (lowerChars q.data) resistancePat = false →
       patSearch (lowerChars q.data) wildTypePat = true →
      (determineCriterionIntent q).status_keyword = "WILD_TYPE")
    ∧ (patSearch (lowerChars q.data) activatingPat = false →
       patSearch (lowerChars q.data) pathogenicPat = false →
       patSearch (lowerChars q.data) resistancePat = false →
       patSearch (lowerChars q.data) wildTypePat = false →
      (determineCriterionIntent q).status_keyword = "ANY_MUTATION") := by
  refine ⟨?_, ?_, ?_, ?_, ?_⟩
  · intro h1
    rw [determineCriterionIntent_status_eq q hher2]
    have hf : statusPriorityList.find? (fun kv => patSearch (lowerChars q.data) kv.2)
        = some ("ACTIVATING", activatingPat) := by
      unfold statusPriorityList
      exact List.find?_cons_of_pos _ (by simpa using h1)
    rw [hf]
    rfl
  · intro h1 h2
    rw [determineCriterionIntent_status_eq q hher2]
    have hf : statusPriorityList.find? (fun kv => patSearch (lowerChars q.data) kv.2)
        = some ("PATHOGENIC/LOF", pathogenicPat) := by
      unfold statusPriorityList
      rw [List.find?_cons_of_neg _ (by simp [h1])]
      exact List.find?_cons_of_pos _ (by simpa using h2)
    rw [hf]
    rfl
  · intro h1 h2 h3
    rw [determineCriterionIntent_status_eq q hher2]
    have hf : statusPriorityList.find? (fun kv => patSearch (lowerChars q.data) kv.2)
        = some ("RESISTANCE", resistancePat) := by
      unfold statusPriorityList
      rw [List.find?_cons_of_neg _ (by simp [h1]), List.find?_cons_of_neg _ (by simp [h2])]
      exact List.find?_cons_of_pos _ (by simpa using h3)
    rw [hf]
    rfl
  · intro h1 h2 h3 h4
    rw [determineCriterionIntent_status_eq q hher2]
    have hf : statusPriorityList.find? (fun kv => patSearch (lowerChars q.data) kv.2)
        = some ("WILD_TYPE", wildTypePat) := by
      unfold statusPriorityList
      rw [List.find?_cons_of_neg _ (by simp [h1]), List.find?_cons_of_neg _ (by simp [h2]),
        List.find?_cons_of_neg _ (by simp [h3])]
      exact List.find?_cons_of_pos _ (by simpa using h4)
    rw [hf]
    rfl
  · intro h1 h2 h3 h4
    rw [determineCriterionIntent_status_eq q hher2]
    cases h5 : patSearch (lowerChars q.data) mutationPat with
    | true =>
        have hf : statusPriorityList.find? (fun kv => patSearch (lowerChars q.data) kv.2)
            = some ("ANY_MUTATION", mutationPat) := by
          unfold statusPriorityList
          rw [List.find?_cons_of_neg _ (by simp [h1]), List.find?_cons_of_neg _ (by simp [h2]),
            List.find?_cons_of_neg _ (by simp [h3]), List.find?_cons_of_neg _ (by simp [h4])]
          exact List.find?_cons_of_pos _ (by simpa using h5)
        rw [hf]
        rfl
    | false =>
        have hf : statusPriorityList.find? (fun kv => patSearch (lowerChars q.data) kv.2)
            = none := by
          unfold statusPriorityList
          rw [List.find?_cons_of_neg _ (by simp [h1]), List.find?_cons_of_neg _ (by simp [h2]),
            List.find?_cons_of_neg _ (by simp [h3]), List.find?_cons_of_neg _ (by simp [h4]),
            List.find?_cons_of_neg _ (by simp [h5])]
          rfl
        rw [hf]
        rfl

/-- C4 witness: a concrete text holding both an activating and a resistance
keyword is classified `ACTIVATING` by the first conjunct of the amended
scan-order theorem. -/
theorem claim4_witness :
    (determineCriterionIntent "oncogenic resistance mutation").status_keyword = "ACTIVATING" :=
  (claim4_status_scan_priority "oncogenic resistance mutation" (by decide)).1 (by decide)

/-- C5 counterexample: the text "egfr status" matches no status keyword
pattern, and the determiner does fall back to `ANY_MUTATION` — but with
`is_negated = true` / `CHECK_ABSENCE` (the catch-all absence heuristic),
not with the presence-required default the claim asserts. -/
theorem claim5_counterexample :
    (statusPriorityList.all
      (fun kv => !(patSearch (lowerChars ("egfr status").data) kv.2)) = true)
    ∧ (determineCriterionIntent "egfr status").status_keyword = "ANY_MUTATION"
    ∧ (determineCriterionIntent "egfr status").is_negated = true
    ∧ (determineCriterionIntent "egfr status").primary_intent = "CHECK_ABSENCE" :=
  ⟨by decide, by decide, by decide, by decide⟩

/-- C5 as amended: when no status-keyword pattern matches (and the
HER2-negative literal override does not fire), the determiner falls back to
required status `ANY_MUTATION` without recording any error; the presence
flag is not always true — it follows the independent presence/absence
scan: `CHECK_PRESENCE` exactly when the text has no effect-of phrasing and
either an explicit presence keyword occurs or no absence keyword occurs
while the first line of the text contains the literal "presence of" (the
span the catch-all absence regex `^(?!.*presence of.*)` inspects). -/
theorem claim5_no_keyword_fallback (q : String)
    (hnone : statusPriorityList.all
      (fun kv => !(patSearch (lowerChars q.data) kv.2)) = true)
    (hher2 : listContainsSub ((lowerChars q.data).filter (fun c => c ≠ ' '))
      ("her2-negative".data) = false) :
    (determineCriterionIntent q).status_keyword = "ANY_MUTATION"
    ∧ ((determineCriterionIntent q).primary_intent = "CHECK_PRESENCE" ↔
        (patSearch (lowerChars q.data) effectOfPat = false ∧
          (presencePats.any (patSearch (lowerChars q.data)) = true ∨
            (absenceRealPats.any (patSearch (lowerChars q.data)) = false ∧
              listContainsSub (firstLine (lowerChars q.data))
                ("presence of".data) = true)))) := by
  have hall : ∀ kv ∈ statusPriorityList, patSearch (lowerChars q.data) kv.2 = false := by
    intro kv hkv
    have := List.all_eq_true.mp hnone kv hkv
    simpa using this
  have hfnone : statusPriorityList.find? (fun kv => patSearch (lowerChars q.data) kv.2)
      = none := by
    rw [List.find?_eq_none]
    intro kv hkv
    simp [hall kv hkv]
  have hscan : statusScanStep (lowerChars q.data) (negationScan (lowerChars q.data))
      = negationScan (lowerChars q.data) := by
    unfold statusScanStep
    rw [hfnone]
  have hdci : determineCriterionIntent q = negationScan (lowerChars q.data) := by
    simp only [determineCriterionIntent, hscan]
    rw [if_neg (fun hc => by rw [hher2] at hc; cases hc),
      if_neg (fun hc => hc.2 (negationScan_status _))]
  constructor
  · rw [hdci, negationScan_status]
  · rw [hdci, negationScan_primary]
    by_cases h1 : patSearch (lowerChars q.data) effectOfPat = true
    · rw [if_pos h1]
      constructor
      · intro h
        exact absurd h (by decide)
      · rintro ⟨hf, _⟩
        rw [h1] at hf
        cases hf
    · rw [Bool.not_eq_true] at h1
      rw [if_neg (by simp [h1])]
      by_cases h2 : ((absenceRealPats.any (patSearch (lowerChars q.data))
          || !(listContainsSub (firstLine (lowerChars q.data)) ("presence of".data)))
          && !(presencePats.any (patSearch (lowerChars q.data)))) = true
      · rw [if_pos h2]
        rw [Bool.and_eq_true, Bool.or_eq_true, Bool.not_eq_true'] at h2
        constructor
        · intro h
          exact absurd h (by decide)
        · rintro ⟨_, hor⟩
          exfalso
          rcases hor with hpres | ⟨habs, hcont⟩
          · rw [hpres] at h2
            simp at h2
          · rcases h2.1 with habs' | hcont'
            · rw [habs] at habs'
              cases habs'
            · rw [Bool.not_eq_true'] at h2
              rw [hcont] at hcont'
              cases hcont'
      · rw [if_neg h2]
        rw [Bool.not_eq_true] at h2
        rw [Bool.and_eq_false_iff] at h2
        refine ⟨fun _ => ⟨h1, ?_⟩, fun _ => rfl⟩
        rcases h2 with h2 | h2
        · rw [Bool.or_eq_false_iff] at h2
          right
          refine ⟨h2.1, ?_⟩
          have := h2.2
          rwa [Bool.not_eq_false'] at this
        · left
          rwa [Bool.not_eq_false'] at h2

/-- C5 witness: "has egfr status" matches no status keyword and has the
explicit presence keyword "has"; the fallback intent is `ANY_MUTATION` with
`CHECK_PRESENCE`. -/
theorem claim5_witness :
    (determineCriterionIntent "has egfr status").status_keyword = "ANY_MUTATION"
    ∧ (determineCriterionIntent "has egfr status").primary_intent = "CHECK_PRESENCE" :=
  ⟨(claim5_no_keyword_fallback "has egfr status" (by decide) (by decide)).1,
   (claim5_no_keyword_fallback "has egfr status" (by decide) (by decide)).2.mpr (by decide)⟩

/-- C1: for every well-typed evaluation with at least one target gene and
no recorded analysis errors, the keys of `gene_summary_statuses` are exactly
the target genes, and the overall status is the AND-combination of the
per-gene summary statuses: `MET` iff every entry is `MET`; `NOT_MET` if any
entry is `NOT_MET` (so a `NOT_MET` gene can never leave the overall status
`MET`); otherwise `UNCLEAR`. -/
theorem claim1_overall_is_and_of_gene_statuses (pred : Predictor)
    (q pid cid : String) (pvs : List PatientVariant)
    (hg : extractGenes q ≠ [])
    (he : (run pred q pid (.ofList pvs) cid).errors = []) :
    ((run pred q pid (.ofList pvs) cid).gene_summary_statuses.map Prod.fst = extractGenes q)
    ∧ ((run pred q pid (.ofList pvs) cid).status = "MET" ↔
        ∀ p ∈ (run pred q pid (.ofList pvs) cid).gene_summary_statuses, p.2.status = "MET")
    ∧ ((∃ p ∈ (run pred q pid (.ofList pvs) cid).gene_summary_statuses,
          p.2.status = "NOT_MET") →
        (run pred q pid (.ofList pvs) cid).status = "NOT_MET")
    ∧ ((¬ ∀ p ∈ (run pred q pid (.ofList pvs) cid).gene_summary_statuses,
          p.2.status = "MET") →
       (¬ ∃ p ∈ (run pred q pid (.ofList pvs) cid).gene_summary_statuses,
          p.2.status = "NOT_MET") →
       (run pred q pid (.ofList pvs) cid).status = "UNCLEAR") := by
  have hnu : ∀ g ∈ extractGenes q, g ≠ "UNKNOWN_GENE_CONTEXT" :=
    fun g hgm => extractGenes_ne_unknown hgm
  have hno : ¬(extractGenes q = [] ∧ extractSpecificVariants q = []) := fun hc => hg hc.1
  have hrun : run pred q pid (.ofList pvs) cid
      = runListMain pred q pid pvs cid (extractGenes q) (extractSpecificVariants q)
          (determineCriterionIntent q) := by
    simp only [run, runList]
    rw [if_neg hno]
  rw [hrun] at he ⊢
  have hsumeq := mainSummaries_eq pred pvs (extractSpecificVariants q)
    (determineCriterionIntent q) hg hnu
  have hsne : mainSummaries pred pvs (extractGenes q) (extractSpecificVariants q)
      (determineCriterionIntent q) ≠ [] := by
    rw [hsumeq]
    intro hnil
    exact hg (List.map_eq_nil_iff.mp hnil)
  have hproc := mainSteps_processed pred pvs (extractSpecificVariants q)
    (determineCriterionIntent q) hg hnu
  have hover : mainOverallPair pred pvs (extractGenes q) (extractSpecificVariants q)
      (determineCriterionIntent q)
      = (overallFromStatusValues ((mainSummaries pred pvs (extractGenes q)
          (extractSpecificVariants q) (determineCriterionIntent q)).map
            (fun p => p.2.status)), []) := by
    unfold mainOverallPair
    rw [if_neg (fun hc => hc.1 hproc), if_neg (fun hc => hsne hc.1),
      if_neg (fun hc => hsne hc.1)]
  have herr2 : (mainFin pred pvs (extractGenes q) (extractSpecificVariants q)
      (determineCriterionIntent q)).2 = [] := he
  have heb : mainErrsBefore pred pvs (extractGenes q) (extractSpecificVariants q)
      (determineCriterionIntent q) = [] := finalizeStatus_snd_nil herr2
  have hstat : (runListMain pred q pid pvs cid (extractGenes q) (extractSpecificVariants q)
      (determineCriterionIntent q)).status
      = overallFromStatusValues ((mainSummaries pred pvs (extractGenes q)
          (extractSpecificVariants q) (determineCriterionIntent q)).map
            (fun p => p.2.status)) := by
    show (mainFin pred pvs (extractGenes q) (extractSpecificVariants q)
        (determineCriterionIntent q)).1 = _
    unfold mainFin
    rw [heb, finalizeStatus_nil_errs, hover]
  have hmapfield : (runListMain pred q pid pvs cid (extractGenes q)
      (extractSpecificVariants q) (determineCriterionIntent q)).gene_summary_statuses
      = mainSummaries pred pvs (extractGenes q) (extractSpecificVariants q)
          (determineCriterionIntent q) := rfl
  rw [hmapfield, hstat]
  set S := mainSummaries pred pvs (extractGenes q) (extractSpecificVariants q)
    (determineCriterionIntent q) with hS
  have hsvne : S.map (fun p => p.2.status) ≠ [] := by
    intro hnil
    exact hsne (List.map_eq_nil_iff.mp hnil)
  obtain ⟨hiff, himp, hunc⟩ := overallFromStatusValues_spec (S.map (fun p => p.2.status)) hsvne
  have htrans1 : (∀ s ∈ S.map (fun p => p.2.status), s = "MET")
      ↔ (∀ p ∈ S, p.2.status = "MET") := by
    constructor
    · intro hall p hp
      exact hall _ (List.mem_map_of_mem _ hp)
    · intro hall s hs
      obtain ⟨p, hp, rfl⟩ := List.mem_map.mp hs
      exact hall p hp
  have htrans2 : (∃ s ∈ S.map (fun p => p.2.status), s = "NOT_MET")
      ↔ (∃ p ∈ S, p.2.status = "NOT_MET") := by
    constructor
    · rintro ⟨s, hs, rfl⟩
      obtain ⟨p, hp, hps⟩ := List.mem_map.mp hs
      exact ⟨p, hp, hps⟩
    · rintro ⟨p, hp, hps⟩
      exact ⟨p.2.status, List.mem_map_of_mem _ hp, hps⟩
  refine ⟨?_, ?_, ?_, ?_⟩
  · rw [hsumeq, List.map_map]
    exact (map_congr_of_mem (fun g _ => rfl)).trans (List.map_id _)
  · rw [hiff]
    exact htrans1
  · intro hex
    exact himp (htrans2.mpr hex)
  · intro hnall hnex
    exact hunc (fun hall => hnall (htrans1.mp hall)) (fun hex => hnex (htrans2.mp hex))

/-- C1 witness: the activating-BRAF scenario has one target gene, no
errors, and every per-gene status `MET`, so the overall status is `MET`. -/
theorem claim1_witness :
    (run realMock activatingBrafQuery "PAT123" (.ofList activatingBrafVariants)
      "custom_query").status = "MET" :=
  (claim1_overall_is_and_of_gene_statuses realMock activatingBrafQuery "PAT123" "custom_query"
      activatingBrafVariants (by decide) (by decide)).2.1.mpr (by decide)

/-- C3: whenever any error is recorded during an evaluation, an overall
status of `MET`/`NOT_MET` is downgraded to `UNCLEAR` before the result is
returned — every returned result whose status is `MET` or `NOT_MET` has an
empty `errors` list — and a per-variant predictor failure is caught
locally: for any two predictors (however many of their calls fail) the
classifier produces detail records for exactly the same number of variants,
so one failing call never aborts the analysis of the other variants (each
failing call contributes an `ERROR_MOCK_API` placeholder detail instead). -/
theorem claim3_errors_downgrade_and_failures_stay_local :
    (∀ (pred : Predictor) (q pid cid : String) (inp : PatientMutationsInput),
      (run pred q pid inp cid).status = "MET" ∨ (run pred q pid inp cid).status = "NOT_MET" →
      (run pred q pid inp cid).errors = [])
    ∧ (∀ (p1 p2 : Predictor) (g : String) (gl : List PatientVariant) (sv : List String)
        (intent : IntentDetails),
      ((classifyVariantSimulated p1 g gl sv intent).1).length
        = ((classifyVariantSimulated p2 g gl sv intent).1).length) := by
  constructor
  · intro pred q pid cid inp h
    cases inp with
    | notAList s =>
        exfalso
        rcases h with h | h <;> simp [run] at h
    | ofList l =>
        simp only [run, runList] at h ⊢
        by_cases hearly : extractGenes q = [] ∧ extractSpecificVariants q = []
        · rw [if_pos hearly] at h ⊢
          exfalso
          rcases h with h | h <;> simp at h
        · rw [if_neg hearly] at h ⊢
          exact finalizeStatus_met_errs h
  · intro p1 p2 g gl sv intent
    simp only [classifyVariantSimulated]
    by_cases hsv : sv ≠ []
    · rw [if_pos hsv, if_pos hsv]
      dsimp only
      rw [List.length_map, List.length_map]
    · rw [if_neg hsv, if_neg hsv]
      by_cases hgl : gl ≠ []
      · rw [if_pos hgl, if_pos hgl]
        dsimp only
        exact filterMap_map_length gl usableQuery
          (scenario2Detail p1 g (queryIntentForMockApi intent))
          (scenario2Detail p2 g (queryIntentForMockApi intent))
      · rw [if_neg hgl, if_neg hgl]
        dsimp only
        unfold scenario3Items
        by_cases hwt : intent.primary_intent = "CHECK_PRESENCE"
            ∧ intent.status_keyword = "WILD_TYPE"
        · rw [if_pos hwt, if_pos hwt]
          cases p1 g "Wild_Type" none (some "benign") <;>
            cases p2 g "Wild_Type" none (some "benign") <;> rfl
        · rw [if_neg hwt, if_neg hwt]

/-- C3 witness: the activating-BRAF scenario returns status `MET`, and its
errors list is indeed empty. -/
theorem claim3_witness :
    (run realMock activatingBrafQuery "PAT123" (.ofList activatingBrafVariants)
      "custom_query").errors = [] :=
  claim3_errors_downgrade_and_failures_stay_local.1 realMock activatingBrafQuery "PAT123"
    "custom_query" (.ofList activatingBrafVariants) (Or.inl (by decide))

/-- C10: every key of the returned `gene_summary_statuses` map is a gene
symbol the gene extractor found in the criterion text itself; a gene that
appears only in the `patient_mutations` list never receives an entry. -/
theorem claim10_summary_keys_only_from_text (pred : Predictor) (q pid cid : String)
    (inp : PatientMutationsInput) (p : String × GeneSummaryStatus)
    (hmem : p ∈ (run pred q pid inp cid).gene_summary_statuses) :
    p.1 ∈ extractGenes q := by
  cases inp with
  | notAList s =>
      exfalso
      simp [run] at hmem
  | ofList l =>
      simp only [run, runList] at hmem
      by_cases hearly : extractGenes q = [] ∧ extractSpecificVariants q = []
      · rw [if_pos hearly] at hmem
        simp at hmem
      · rw [if_neg hearly] at hmem
        have hmem' : p ∈ mainSummaries pred l (extractGenes q) (extractSpecificVariants q)
            (determineCriterionIntent q) := hmem
        unfold mainSummaries mainSteps at hmem'
        rw [flatMap_map_fn, List.mem_flatMap] at hmem'
        obtain ⟨g, hgl, hpg⟩ := hmem'
        by_cases htg : extractGenes q = []
        · exfalso
          simp only [loopGenesOf] at hgl
          rw [if_pos htg] at hgl
          have hgu : g = "UNKNOWN_GENE_CONTEXT" := by simpa using hgl
          subst hgu
          simp only [geneStep] at hpg
          split at hpg <;> simp at hpg
        · simp only [loopGenesOf] at hgl
          rw [if_neg htg] at hgl
          have hgu : g ≠ "UNKNOWN_GENE_CONTEXT" := extractGenes_ne_unknown hgl
          rw [geneStep_of_ne_unknown pred _ _ l hgu] at hpg
          have hpeq : p = (g, getGeneSummaryStatus g
              (classifyVariantSimulated pred g
                (l.filter (fun m => strUpper m.hugo_gene_symbol == strUpper g))
                (extractSpecificVariants q) (determineCriterionIntent q)).1
              (determineCriterionIntent q)) := by
            simpa using hpg
          rw [hpeq]
          exact hgl

/-- C10 witness: in the EGFR wild-type scenario the only summary entry is
keyed by EGFR, and EGFR is indeed extracted from the criterion text. -/
theorem claim10_witness :
    (((run realMock egfrWildTypeQuery "PAT123" (.ofList egfrWildTypeVariants)
        "custom_query").gene_summary_statuses).headD ("", ⟨"", ""⟩)).1
      ∈ extractGenes egfrWildTypeQuery :=
  claim10_summary_keys_only_from_text realMock egfrWildTypeQuery "PAT123" "custom_query"
    (.ofList egfrWildTypeVariants) _ (by decide)

/-- C6 counterexample: permuting the patient variant list can change the
overall status.  With the criterion "pathogenic BRAF K601N mutation" and two
BRAF records that share the protein change K601N but carry different
`variant_type` values, the classifier resolves the type through the first
matching record, giving `NOT_MET` for one order and `MET` for the other. -/
theorem claim6_counterexample :
    List.Perm [k601nNonsense, k601nMissense] [k601nMissense, k601nNonsense]
    ∧ (run realMock orderSensitiveQuery "PAT123"
        (.ofList [k601nNonsense, k601nMissense]) "custom_query").status = "NOT_MET"
    ∧ (run realMock orderSensitiveQuery "PAT123"
        (.ofList [k601nMissense, k601nNonsense]) "custom_query").status = "MET" :=
  ⟨by decide, rfl, rfl⟩

/-- C6 as amended: for every criterion text and every permutation of the
`patient_mutations` list in which no two records of one gene share a
non-empty normalized protein change with different `variant_type` values,
`run` produces the same `gene_summary_statuses` map and the same overall
status (the per-gene aggregation itself is order-independent; only the
first-match `variant_type` lookup of scenario 1 is order-sensitive, and the
hypothesis rules its ambiguity out). -/
theorem claim6_permutation_invariance (pred : Predictor) (q pid cid : String)
    {l l' : List PatientVariant} (hp : l.Perm l')
    (hnc : noConflictingDuplicates l = true) :
    (run pred q pid (.ofList l) cid).gene_summary_statuses
        = (run pred q pid (.ofList l') cid).gene_summary_statuses
    ∧ (run pred q pid (.ofList l) cid).status = (run pred q pid (.ofList l') cid).status := by
  simp only [run, runList]
  by_cases hearly : extractGenes q = [] ∧ extractSpecificVariants q = []
  · rw [if_pos hearly, if_pos hearly]
    exact ⟨rfl, rfl⟩
  · rw [if_neg hearly, if_neg hearly]
    exact runListMain_perm pred q pid cid (extractGenes q) (extractSpecificVariants q)
      (determineCriterionIntent q) hp hnc

/-- C6 witness: swapping the two (distinct-gene) records of the
activating-BRAF scenario changes neither the summary map nor the status. -/
theorem claim6_witness :
    (run realMock activatingBrafQuery "PAT123"
        (.ofList [brafV600EVariant, tp53R248StopVariant]) "custom_query").status
      = (run realMock activatingBrafQuery "PAT123"
        (.ofList [tp53R248StopVariant, brafV600EVariant]) "custom_query").status :=
  (claim6_permutation_invariance realMock activatingBrafQuery "PAT123" "custom_query"
    (by decide) (by decide)).2

end GenomicAnalyst
